import Mathlib

/-!
Verification development for the reference-checker core of the
pubmed-gemini-extension repository.

The definitions below are shallow embeddings of the Python sources:
- `reference_checker/verification_engine.py` (the VKB copy, which is the
  richer of the two and the one the classifier / cascade claims cite), and
- `reference_checker/reference_extractor.py`.

Modelling conventions:
- Python floats are modelled as `ℚ` (all constants involved — 0.80, 0.60,
  0.50, 0.30, 0.9, 0.85, 0.25, 0.15 — are exact decimal constants and the
  claims are about the rule structure, not float rounding).
- Python string truthiness (`if s:`) is "not `None` and not empty";
  integer truthiness is "not `None` and not 0".
- The fake-indicator / warning / discrepancy strings are each produced by
  exactly one `append` site with a fixed f-string template, and are only
  ever inspected by substring tests ("Future publication", "field
  difference", "FRANKENSTEIN", "Truncated") that distinguish exactly those
  templates; they are therefore modelled as inductive kinds, one per
  template.
- `_string_similarity` switches on the availability of the optional
  rapidfuzz dependency; it is modelled as an abstract strategy function
  `sim : String → String → ℚ`, passed exactly the (possibly lowercased)
  arguments the call sites pass.
- Network adapters are oracles returning `Except String …`: `.error e`
  models an exception from an adapter call escaping into `verify`'s
  `try` block (the "unrecovered adapter failure" of the spec).
-/

/-! ## Status and kind types (verification_engine.py, VerificationStatus etc.) -/

inductive VerificationStatus where
  | VERIFIED
  | VERIFIED_LEGACY_DOI
  | GREY_LITERATURE
  | LOW_QUALITY_SOURCE
  | SUSPICIOUS
  | NOT_FOUND
  | DEFINITE_FAKE
  | LIKELY_VALID
  | UNPARSEABLE
  | ERROR
  deriving DecidableEq, Repr

/-- One kind per fake-indicator f-string template appended in `verify`:
"Truncated/malformed DOI: …", "Future publication date: …",
"FRANKENSTEIN CITATION: …", "DOI mismatch with field difference: …". -/
inductive IndKind where
  | truncatedDoi
  | futureDate
  | frankenstein
  | doiFieldMismatch
  deriving DecidableEq, Repr

/-- One kind per false-positive-warning template appended in `verify`. -/
inductive WarnKind where
  | crossrefNonMedical
  | europePmcFound
  | openalexFound
  | classicWork
  | webResource
  | nonMedicalJournal
  | legacyDoiNote
  | lowQualityNote
  | greyLitNote
  | bookSoftwareNote
  | recentPaperNote
  deriving DecidableEq, Repr

/-- One kind per discrepancy template appended by `_find_discrepancies`
and the DOI-resolution failure in step 1 of `verify`. -/
inductive DiscKind where
  | metadataMismatch
  | yearMismatch
  | titleDiffers
  | doiMismatch
  | doiNotResolve
  deriving DecidableEq, Repr

/-- Network calls instrumented on the adapter boundary (the HTTP requests
the corresponding Python helpers would issue). -/
inductive NetCall where
  | doiHead (doi : String)
  | crossrefDoi (doi : String)
  | openalexDoi (doi : String)
  | pubmedSearch
  | crossrefSearch
  | europePmcSearch
  | openalexSearch
  deriving DecidableEq, Repr

/-- Calls that resolve a DOI over the network: the `doi.org` HEAD request
and the CrossRef-by-DOI / OpenAlex-by-DOI fallbacks. -/
def NetCall.isDoiResolution : NetCall → Bool
  | .doiHead _ => true
  | .crossrefDoi _ => true
  | .openalexDoi _ => true
  | _ => false

/-! ## Final-status classification (verify, lines 465–542) -/

/-- Shallow embedding of the status-selection `if`/`elif` chain at the end
of `VerificationEngine.verify` (step 6).  Arguments are the values the
Python code branches on at that point: the fake-indicator list, whether
the false-positive-warning list is non-empty, `best_confidence`, DOI
truthiness, `doi_valid`, presence of `pubmed_match`, and the four
source-type flags `is_grey_lit`, `is_book_software`, `is_low_quality`,
`is_recent`. -/
def classify (fake : List IndKind) (warns : Bool) (best : ℚ)
    (doiP : Bool) (dv : Option Bool) (pmP : Bool)
    (grey book lowq recent : Bool) : VerificationStatus :=
  if fake ≠ [] ∧ warns = false then
    if IndKind.futureDate ∈ fake ∧ best < 1/2 then .DEFINITE_FAKE
    else if IndKind.doiFieldMismatch ∈ fake then .DEFINITE_FAKE
    else if IndKind.frankenstein ∈ fake then .DEFINITE_FAKE
    else .SUSPICIOUS
  else if 4/5 ≤ best then
    if doiP = true ∧ dv = some false ∧ pmP = true then .VERIFIED_LEGACY_DOI
    else .VERIFIED
  else if lowq = true ∧ 3/10 ≤ best then .LOW_QUALITY_SOURCE
  else if (grey = true ∨ book = true) ∧ best < 4/5 then .GREY_LITERATURE
  else if 1/2 ≤ best then .SUSPICIOUS
  else if warns = true ∧ 3/10 ≤ best then .LIKELY_VALID
  else if recent = true ∧ best < 1/2 then .LIKELY_VALID
  else if warns = true then .LIKELY_VALID
  else .NOT_FOUND

/-- The extra false-positive warnings appended by the status branches of
step 6 (same branch structure as `classify`). -/
def classifyExtraWarns (fake : List IndKind) (warns : Bool) (best : ℚ)
    (doiP : Bool) (dv : Option Bool) (pmP : Bool)
    (grey book lowq recent : Bool) : List WarnKind :=
  if fake ≠ [] ∧ warns = false then []
  else if 4/5 ≤ best then
    if doiP = true ∧ dv = some false ∧ pmP = true then [.legacyDoiNote]
    else []
  else if lowq = true ∧ 3/10 ≤ best then [.lowQualityNote]
  else if (grey = true ∨ book = true) ∧ best < 4/5 then
    if grey = true then [.greyLitNote] else [.bookSoftwareNote]
  else if 1/2 ≤ best then []
  else if warns = true ∧ 3/10 ≤ best then []
  else if recent = true ∧ best < 1/2 then [.recentPaperNote]
  else []

/-- C1, counterexample: with a truncated-DOI fake indicator, no
false-positive warning, and confidence 0.9, none of the three
DEFINITE_FAKE sub-rules of the priority table applies, and confidence is
≥ 0.80, yet the code classifies SUSPICIOUS — not VERIFIED (nor
VERIFIED_LEGACY_DOI) as the claim's "first matching rule" reading of the
priority table requires. -/
theorem c1_counterexample :
    (¬ ((IndKind.futureDate ∈ [IndKind.truncatedDoi] ∧ (9:ℚ)/10 < 1/2) ∨
        IndKind.doiFieldMismatch ∈ [IndKind.truncatedDoi] ∨
        IndKind.frankenstein ∈ [IndKind.truncatedDoi])) ∧
    (4:ℚ)/5 ≤ 9/10 ∧
    classify [IndKind.truncatedDoi] false (9/10) false none false
      false false false false = .SUSPICIOUS := by
  refine ⟨by decide, by norm_num, ?_⟩
  decide

/-- C1 (amended): DEFINITE_FAKE is assigned exactly when a fake indicator
is present, no false-positive warning is present, and one of (future-date
indicator with confidence < 0.50; field-difference DOI-mismatch
indicator; Frankenstein indicator) holds; when no fake indicator is
present or a false-positive warning exists, confidence ≥ 0.80 yields
VERIFIED (or VERIFIED_LEGACY_DOI when the cited DOI is present,
`doi_valid` is false and a PubMed match exists); but when a fake
indicator is present with no false-positive warning and none of the
three sub-rules holds, the status is SUSPICIOUS regardless of
confidence. -/
theorem c1_classifier_amended (fake : List IndKind) (warns : Bool) (best : ℚ)
    (doiP : Bool) (dv : Option Bool) (pmP : Bool) (g b lq rc : Bool) :
    (classify fake warns best doiP dv pmP g b lq rc = .DEFINITE_FAKE ↔
      (fake ≠ [] ∧ warns = false ∧
        ((IndKind.futureDate ∈ fake ∧ best < 1/2) ∨
          IndKind.doiFieldMismatch ∈ fake ∨ IndKind.frankenstein ∈ fake)))
    ∧ ((fake = [] ∨ warns = true) → 4/5 ≤ best →
        classify fake warns best doiP dv pmP g b lq rc =
          (if doiP = true ∧ dv = some false ∧ pmP = true then
            .VERIFIED_LEGACY_DOI else .VERIFIED))
    ∧ (fake ≠ [] → warns = false →
        ¬ ((IndKind.futureDate ∈ fake ∧ best < 1/2) ∨
            IndKind.doiFieldMismatch ∈ fake ∨ IndKind.frankenstein ∈ fake) →
        classify fake warns best doiP dv pmP g b lq rc = .SUSPICIOUS) := by
  refine ⟨?_, ?_, ?_⟩
  · unfold classify
    split_ifs <;> simp_all
  · intro h hb
    unfold classify
    have hng : ¬ (fake ≠ [] ∧ warns = false) := by
      rcases h with h | h <;> simp [h]
    rw [if_neg hng, if_pos hb]
  · intro h1 h2 h3
    unfold classify
    rw [if_pos ⟨h1, h2⟩]
    rcases not_or.mp h3 with ⟨ha, hbc⟩
    rcases not_or.mp hbc with ⟨hb, hc⟩
    rw [if_neg ha, if_neg (by simpa using hb), if_neg (by simpa using hc)]

/-- Witness for `c1_classifier_amended` at a concrete input. -/
theorem c1_classifier_amended_witness :
    (([] : List IndKind) = [] ∨ false = true) ∧ (4:ℚ)/5 ≤ 9/10 ∧
    classify [] false (9/10) false none false false false false false =
      .VERIFIED := by
  refine ⟨Or.inl rfl, by norm_num, ?_⟩
  have h := (c1_classifier_amended [] false (9/10) false none false
    false false false false).2.1 (Or.inl rfl) (by norm_num)
  simpa using h

/-! ## String utilities shared by the embeddings

Python's `\s` / `str.strip()` whitespace is the Unicode whitespace set;
`str.lower()` is modelled with `Char.toLower` (ASCII case folding — all
strings appearing in the claims are ASCII). -/

def isWs (c : Char) : Bool :=
  c = ' ' || c = '\t' || c = '\n' || c = '\r' ||
  c.toNat = 0x0b || c.toNat = 0x0c ||
  (0x1c ≤ c.toNat && c.toNat ≤ 0x1f) || c.toNat = 0x85 || c.toNat = 0xa0 ||
  c.toNat = 0x1680 || (0x2000 ≤ c.toNat && c.toNat ≤ 0x200a) ||
  c.toNat = 0x2028 || c.toNat = 0x2029 || c.toNat = 0x202f ||
  c.toNat = 0x205f || c.toNat = 0x3000

def lowerStr (s : String) : String := ⟨s.data.map Char.toLower⟩

/-- Python `str.strip()`. -/
def stripStr (s : String) : String :=
  ⟨((s.data.dropWhile isWs).reverse.dropWhile isWs).reverse⟩

/-- `listLead pat cs`: `pat` occurs at the front of `cs`. -/
def listLead : List Char → List Char → Bool
  | [], _ => true
  | _ :: _, [] => false
  | p :: ps, c :: cs => p = c && listLead ps cs

/-- `hasSub pat hay`: `pat` occurs somewhere in `hay`
(Python `pat in hay` on strings). -/
def hasSub (pat : List Char) : List Char → Bool
  | [] => listLead pat []
  | hay@(_ :: t) => listLead pat hay || hasSub pat t

def strHas (hay pat : String) : Bool := hasSub pat.data hay.data

/-- Python string truthiness (`if s:` for `Optional[str]`). -/
def optTruthy : Option String → Bool
  | some s => !s.isEmpty
  | none => false

def getS (o : Option String) : String := o.getD ""

/-- Python int truthiness (`if n:` for `Optional[int]`). -/
def yTruthy : Option Int → Bool
  | some y => y ≠ 0
  | none => false

/-- Python `a.split(',')[0]`. -/
def beforeComma (s : String) : String := ⟨s.data.takeWhile (· ≠ ',')⟩

/-- Whitespace-splitting of Python `str.split()` (no arguments). -/
def wsWordsGo : List Char → List Char → List (List Char)
  | [], acc => if acc.isEmpty then [] else [acc.reverse]
  | c :: rest, acc =>
    if isWs c then
      if acc.isEmpty then wsWordsGo rest []
      else acc.reverse :: wsWordsGo rest []
    else wsWordsGo rest (c :: acc)

/-- Python `a.split()[-1]`; on a string with no words Python raises
IndexError (inside a helper that catches it) — modelled as `""`. -/
def lastWsWord (s : String) : String :=
  match (wsWordsGo s.data []).getLast? with
  | some w => ⟨w⟩
  | none => ""

/-- First occurrence of four consecutive ASCII digits
(Python `re.search(r'\d{4}', s)` followed by `int(...)`). -/
def findYear4Go : List Char → Option Int
  | [] => none
  | c1 :: rest =>
    match rest with
    | c2 :: c3 :: c4 :: _ =>
      if c1.isDigit && c2.isDigit && c3.isDigit && c4.isDigit then
        some (((c1.toNat - 48) * 1000 + (c2.toNat - 48) * 100 +
          (c3.toNat - 48) * 10 + (c4.toNat - 48) : ℕ) : ℤ)
      else findYear4Go rest
    | _ => none

def findYear4 (s : String) : Option Int := findYear4Go s.data

/-! ## Data model (reference_extractor.py / verification_engine.py) -/

/-- `ParsedReference` dataclass of reference_extractor.py. -/
structure ParsedReference where
  raw_text : String
  reference_number : Int := 0
  authors : List String := []
  year : Option Int := none
  title : Option String := none
  journal : Option String := none
  volume : Option String := none
  issue : Option String := none
  pages : Option String := none
  doi : Option String := none
  pmid : Option String := none
  url : Option String := none
  parse_confidence : ℚ := 0
  parse_warnings : List String := []
  deriving DecidableEq, Repr

/-- The article record returned by the PubMed client's `fetch_article`
(the fields `_check_pubmed` reads). -/
structure PubMedArticle where
  pmid : String := ""
  title : String := ""
  authors : List String := []
  pub_date : Option String := none
  journal : Option String := none
  doi : Option String := none
  deriving DecidableEq, Repr

/-- `PubMedMatch` dataclass of verification_engine.py. -/
structure PubMedMatch where
  pmid : String := ""
  title : String := ""
  authors : List String := []
  year : Option Int := none
  journal : Option String := none
  doi : Option String := none
  confidence : ℚ := 0
  deriving DecidableEq, Repr

/-- `CrossRefMatch` dataclass of verification_engine.py. -/
structure CrossRefMatch where
  doi : String := ""
  title : String := ""
  authors : List String := []
  year : Option Int := none
  journal : Option String := none
  confidence : ℚ := 0
  deriving DecidableEq, Repr

/-- One author entry of a CrossRef work item (`item["author"]`). -/
structure CrossRefAuthor where
  family : Option String := none
  given : Option String := none
  deriving DecidableEq, Repr

/-- The fields of a CrossRef work item that `_check_crossref` and
`_calculate_crossref_confidence` read.  `printYear` / `onlineYear` model
`item["published-print"/"published-online"]["date-parts"][0][0]`
(`none` = the key chain is missing / falsy). -/
structure CrossRefItem where
  titles : List String := []
  authors : List CrossRefAuthor := []
  printYear : Option Int := none
  onlineYear : Option Int := none
  doi : String := ""
  containerTitles : List String := []
  deriving DecidableEq, Repr

/-! ## Fuzzy matcher and confidence (verification_engine.py 1166–1340) -/

/-- `_author_similarity`. -/
def authorSimilarity (refAuthors articleAuthors : List String) : ℚ :=
  if refAuthors.isEmpty || articleAuthors.isEmpty then 0
  else
    let refLast := (refAuthors.map
      (fun a => stripStr (lowerStr (beforeComma a)))).toFinset
    let artLast := (articleAuthors.map
      (fun a => stripStr (lowerStr (lastWsWord a)))).toFinset
    let inter := refLast ∩ artLast
    let refFirst := stripStr (lowerStr (beforeComma (refAuthors.headD "")))
    let artFirst := stripStr (lowerStr (lastWsWord (articleAuthors.headD "")))
    let firstMatch : ℚ := if refFirst = artFirst then 1 else 1/2
    let overlap : ℚ := (inter.card : ℚ) / ((max refLast.card 1 : ℕ) : ℚ)
    firstMatch * (3/5) + overlap * (2/5)

/-- The year-similarity ladder inside `_calculate_match_confidence`
(exact = 1.0; ±1 = 0.9; ±2 = 0.5; else 0.0). -/
def yearSimOfDiff (d : ℕ) : ℚ :=
  if d = 0 then 1 else if d = 1 then 9/10 else if d = 2 then 1/2 else 0

/-- The author entry of the `scores` list of `_calculate_match_confidence`. -/
def pmAuthorComp (ref : ParsedReference) (article : PubMedArticle) :
    List (ℚ × ℚ) :=
  if !ref.authors.isEmpty && !article.authors.isEmpty then
    [(authorSimilarity ref.authors article.authors, 1/4)] else []

/-- The year entry of the `scores` list of `_calculate_match_confidence`. -/
def pmYearComp (ref : ParsedReference) (article : PubMedArticle) :
    List (ℚ × ℚ) :=
  if yTruthy ref.year && optTruthy article.pub_date then
    match findYear4 (getS article.pub_date) with
    | some ay => [(yearSimOfDiff ((ref.year.getD 0) - ay).natAbs, 3/20)]
    | none => []
  else []

/-- The weighted average at the end of `_calculate_match_confidence`. -/
def weightedAvg (scores : List (ℚ × ℚ)) : ℚ :=
  let tw := (scores.map Prod.snd).sum
  let ws := (scores.map (fun p => p.1 * p.2)).sum
  if 0 < tw then ws / tw else 0

/-- `_calculate_match_confidence` (PubMed search matches). -/
def calcMatchConfidence (sim : String → String → ℚ) (ref : ParsedReference)
    (article : PubMedArticle) : ℚ :=
  if optTruthy ref.title && !article.title.isEmpty then
    let t := sim (lowerStr (getS ref.title)) (lowerStr article.title)
    if t < 3/5 then 0
    else weightedAvg ([(t, 3/5)] ++ pmAuthorComp ref article ++ pmYearComp ref article)
  else
    let scores := pmAuthorComp ref article ++ pmYearComp ref article
    if scores.isEmpty then 0 else weightedAvg scores

/-- `published-print` year, falling back to `published-online`. -/
def crossrefItemYear (item : CrossRefItem) : Option Int :=
  match item.printYear with
  | some y => some y
  | none => item.onlineYear

/-- The author score appended by `_calculate_crossref_confidence`. -/
def crossrefAuthorScore (ref : ParsedReference) (item : CrossRefItem) : ℚ :=
  if !ref.authors.isEmpty && !item.authors.isEmpty then
    let rf := lowerStr (beforeComma (ref.authors.headD ""))
    if !rf.isEmpty &&
        (item.authors.map (fun a => lowerStr (getS a.family))).contains rf
    then 1/4 else 0
  else 0

/-- The year score appended by `_calculate_crossref_confidence`. -/
def crossrefYearScore (ref : ParsedReference) (item : CrossRefItem) : ℚ :=
  if yTruthy ref.year && crossrefItemYear item = some (ref.year.getD 0) then
    3/20 else 0

/-- `_calculate_crossref_confidence` (CrossRef search matches). -/
def calcCrossrefConfidence (sim : String → String → ℚ) (ref : ParsedReference)
    (item : CrossRefItem) : ℚ :=
  if optTruthy ref.title && !item.titles.isEmpty then
    let t := sim (lowerStr (getS ref.title)) (lowerStr (item.titles.headD ""))
    if t < 3/5 then 0
    else t * (3/5) + crossrefAuthorScore ref item + crossrefYearScore ref item
  else crossrefAuthorScore ref item + crossrefYearScore ref item

/-- `_is_metadata_mismatch`. -/
def isMetadataMismatch (sim : String → String → ℚ) (ref : ParsedReference)
    (m : PubMedMatch) : Bool :=
  if !(optTruthy ref.title && !m.title.isEmpty) then false
  else
    let t := sim (lowerStr (getS ref.title)) (lowerStr m.title)
    if t < 3/10 then true
    else if yTruthy ref.year && yTruthy m.year then
      if 5 < ((ref.year.getD 0) - (m.year.getD 0)).natAbs then
        decide (t < 1/2)
      else false
    else false

/-- `_find_discrepancies` (kinds of the appended strings; the title
comparison passes the raw, un-lowercased titles, as the code does). -/
def findDiscrepancies (sim : String → String → ℚ) (ref : ParsedReference)
    (m : PubMedMatch) : List DiscKind :=
  (if isMetadataMismatch sim ref m then [DiscKind.metadataMismatch] else [])
  ++ (if yTruthy ref.year && yTruthy m.year &&
        1 < ((ref.year.getD 0) - (m.year.getD 0)).natAbs then
        [DiscKind.yearMismatch] else [])
  ++ (if optTruthy ref.title && !m.title.isEmpty &&
        sim (getS ref.title) m.title < 1/2 then
        [DiscKind.titleDiffers] else [])
  ++ (if optTruthy ref.doi && optTruthy m.doi &&
        lowerStr (getS ref.doi) ≠ lowerStr (getS m.doi) then
        [DiscKind.doiMismatch] else [])


/-- C2: whenever both titles are present and the computed title similarity
is strictly below 0.60, both `_calculate_match_confidence` and
`_calculate_crossref_confidence` return exactly 0.0; at similarity
exactly 0.60 the match is accepted and the confidence is the normal
weighted score (for the PubMed calculator, the weighted average over the
present components — weights 0.6/0.25/0.15 summing to 1; for the
CrossRef calculator, the sum of the component scores). -/
theorem c2_title_floor (sim : String → String → ℚ) (ref : ParsedReference)
    (article : PubMedArticle) (item : CrossRefItem) (a y : ℚ)
    (hrt : optTruthy ref.title = true) (hat : article.title.isEmpty = false)
    (hit : item.titles.isEmpty = false)
    (ha : pmAuthorComp ref article = [(a, 1/4)])
    (hy : pmYearComp ref article = [(y, 3/20)]) :
    (sim (lowerStr (getS ref.title)) (lowerStr article.title) < 3/5 →
      calcMatchConfidence sim ref article = 0)
    ∧ (sim (lowerStr (getS ref.title)) (lowerStr (item.titles.headD "")) < 3/5 →
      calcCrossrefConfidence sim ref item = 0)
    ∧ (sim (lowerStr (getS ref.title)) (lowerStr article.title) = 3/5 →
      calcMatchConfidence sim ref article = 9/25 + a * (1/4) + y * (3/20))
    ∧ (sim (lowerStr (getS ref.title)) (lowerStr (item.titles.headD "")) = 3/5 →
      calcCrossrefConfidence sim ref item =
        9/25 + crossrefAuthorScore ref item + crossrefYearScore ref item) := by
  refine ⟨?_, ?_, ?_, ?_⟩
  · intro h
    simp only [calcMatchConfidence, hrt, hat, Bool.not_false, Bool.and_self,
      if_true, if_pos h]
  · intro h
    simp only [calcCrossrefConfidence, hrt, hit, Bool.not_false, Bool.and_self,
      if_true, if_pos h]
  · intro h
    simp only [calcMatchConfidence, hrt, hat, Bool.not_false, Bool.and_self,
      if_true, h, ha, hy]
    rw [if_neg (by norm_num)]
    simp only [weightedAvg, List.cons_append, List.nil_append, List.map_cons,
      List.map_nil, List.sum_cons, List.sum_nil]
    norm_num
    ring
  · intro h
    simp only [calcCrossrefConfidence, hrt, hit, Bool.not_false, Bool.and_self,
      if_true, h]
    rw [if_neg (by norm_num)]
    norm_num

def c2ref : ParsedReference :=
  { raw_text := "Smith, J. (2023). Yoga and anxiety. J, 1(1), 1-2.",
    title := some "Yoga and anxiety", authors := ["Smith, J."],
    year := some 2023 }

def c2article : PubMedArticle :=
  { title := "Yoga anxiety meta", authors := ["John Smith"],
    pub_date := some "2022 Jan" }

def c2item : CrossRefItem :=
  { titles := ["Yoga anxiety"], authors := [{ family := some "Smith" }],
    printYear := some 2023 }

/-- Witness for `c2_title_floor` at a concrete input (constant similarity
0.60: the boundary case is accepted with the normal weighted score). -/
theorem c2_title_floor_witness :
    calcMatchConfidence (fun _ _ => (3:ℚ)/5) c2ref c2article =
      9/25 + authorSimilarity c2ref.authors c2article.authors * (1/4) +
        (9/10) * (3/20) ∧
    calcCrossrefConfidence (fun _ _ => (3:ℚ)/5) c2ref c2item =
      9/25 + crossrefAuthorScore c2ref c2item + crossrefYearScore c2ref c2item := by
  have ha : pmAuthorComp c2ref c2article =
      [(authorSimilarity c2ref.authors c2article.authors, 1/4)] := by
    rw [pmAuthorComp, if_pos (by decide)]
  have hfy : findYear4 (getS c2article.pub_date) = some 2022 := by decide
  have hy : pmYearComp c2ref c2article = [((9:ℚ)/10, 3/20)] := by
    rw [pmYearComp, if_pos (by decide), hfy]
    norm_num [c2ref, yearSimOfDiff]
  have h := c2_title_floor (fun _ _ => (3:ℚ)/5) c2ref c2article c2item
    (authorSimilarity c2ref.authors c2article.authors) (9/10)
    (by decide) (by decide) (by decide) ha hy
  exact ⟨h.2.2.1 rfl, h.2.2.2 rfl⟩

/-- C7: when the cited year and the year parsed from the PubMed article's
publication date differ by exactly 1, the year component of
`_calculate_match_confidence` contributes 0.9 (weight 0.15), and
`_find_discrepancies` emits a year discrepancy exactly when both years
are present (truthy) and their absolute difference is greater than 1 —
so never at a difference of 1. -/
theorem c7_year_tolerance (sim : String → String → ℚ) (ref : ParsedReference)
    (article : PubMedArticle) (m : PubMedMatch) (ry ay : ℤ) (t a : ℚ)
    (h1 : ref.year = some ry) (h2 : ry ≠ 0)
    (h3 : optTruthy article.pub_date = true)
    (h4 : findYear4 (getS article.pub_date) = some ay)
    (h5 : (ry - ay).natAbs = 1)
    (hrt : optTruthy ref.title = true) (hat : article.title.isEmpty = false)
    (hts : sim (lowerStr (getS ref.title)) (lowerStr article.title) = t)
    (htge : 3/5 ≤ t)
    (ha : pmAuthorComp ref article = [(a, 1/4)]) :
    calcMatchConfidence sim ref article =
      t * (3/5) + a * (1/4) + (9/10) * (3/20)
    ∧ (DiscKind.yearMismatch ∈ findDiscrepancies sim ref m ↔
        (yTruthy ref.year = true ∧ yTruthy m.year = true ∧
          1 < ((ref.year.getD 0) - (m.year.getD 0)).natAbs)) := by
  constructor
  · have hyc : pmYearComp ref article = [((9:ℚ)/10, 3/20)] := by
      rw [pmYearComp, if_pos (by simp [h1, yTruthy, h2, h3]), h4]
      simp [h1, h5, yearSimOfDiff]
    simp only [calcMatchConfidence, hrt, hat, Bool.not_false, Bool.and_self,
      if_true, hts, ha, hyc]
    rw [if_neg (by linarith)]
    simp only [weightedAvg, List.cons_append, List.nil_append, List.map_cons,
      List.map_nil, List.sum_cons, List.sum_nil]
    norm_num
    ring
  · simp only [findDiscrepancies, List.mem_append]
    split_ifs with hA hB hC hD <;>
      simp_all [Bool.and_eq_true, decide_eq_true_eq]

def c7ref : ParsedReference :=
  { raw_text := "Lee, K. (2022). Pain study. J, 2(1), 3-4.",
    title := some "Pain study", authors := ["Lee, K."], year := some 2022 }

def c7article : PubMedArticle :=
  { title := "Pain study", authors := ["Kim Lee"], pub_date := some "2021 Dec" }

def c7match : PubMedMatch :=
  { title := "Pain study", authors := ["Kim Lee"], year := some 2021,
    confidence := 1 }

/-- Witness for `c7_year_tolerance` at a concrete input: a one-year
"Online First" delta contributes 0.9 and produces no year discrepancy. -/
theorem c7_year_tolerance_witness :
    calcMatchConfidence (fun _ _ => (1:ℚ)) c7ref c7article =
      1 * (3/5) + authorSimilarity c7ref.authors c7article.authors * (1/4) +
        (9/10) * (3/20) ∧
    DiscKind.yearMismatch ∉ findDiscrepancies (fun _ _ => (1:ℚ)) c7ref c7match := by
  have ha : pmAuthorComp c7ref c7article =
      [(authorSimilarity c7ref.authors c7article.authors, 1/4)] := by
    rw [pmAuthorComp, if_pos (by decide)]
  have h := c7_year_tolerance (fun _ _ => (1:ℚ)) c7ref c7article c7match
    2022 2021 1 (authorSimilarity c7ref.authors c7article.authors)
    (by decide) (by decide) (by decide) (by decide) (by decide)
    (by decide) (by decide) rfl (by norm_num) ha
  refine ⟨h.1, fun hmem => ?_⟩
  have hc := h.2.mp hmem
  revert hc
  decide

/-! ## DOI text normalisation (reference_extractor.py, `_normalize_doi_text`)

Each Python `re.sub` is modelled as a left-to-right scanner: at every
position the pattern is tried (greedy semantics hand-compiled for the
concrete pattern, as analysed in the comments); on a match the
replacement is emitted and scanning resumes after the consumed span, on a
failure one character is emitted and scanning advances by one.  Scanners
take a fuel argument (structural recursion, so the kernel can evaluate
them); each step consumes at least one character while spending exactly
one unit of fuel, so fuel `length` never runs out before the input does,
and the fuel-0 case returns the remaining input unchanged.
Python `$` is modelled as end-of-string (the match-before-final-newline
case never arises for the inputs involved), and `\d`/`\w` as their ASCII
readings. -/

def isNl (c : Char) : Bool := c = '\n' || c = '\r'

def notWs (c : Char) : Bool := !isWs c

/-- Step (a) of `_normalize_doi_text`: `text.replace('­', '')`. -/
def rule1 (cs : List Char) : List Char := cs.filter (fun c => c ≠ '\u00AD')

/-- Step (b): `re.sub(r'-\s*[\n\r]+\s*', '-', text)`.  The pattern matches
at a `'-'` exactly when the maximal whitespace run after it contains a
newline, and then consumes that whole run. -/
def rule2go : Nat → List Char → List Char
  | 0, cs => cs
  | _ + 1, [] => []
  | f + 1, c :: rest =>
    if c = '-' && (rest.takeWhile isWs).any isNl then
      c :: rule2go f (rest.dropWhile isWs)
    else c :: rule2go f rest

/-- Step (c): `re.sub(r'(10\.\d{4,}/[^\s\n]*?)[\n\r]+\s*([^\s\n]+)', r'\1\2', text)`
tried at the start of the list: `10.` + ≥4 digits + `/` + a (maximal,
since the char class excludes whitespace) non-whitespace run, whose next
character must be a newline; then the maximal whitespace run; then a
non-empty non-whitespace run (group 2).  Replacement: group1 ++ group2. -/
def rule3Match (cs : List Char) : Option (List Char × List Char) :=
  match cs with
  | '1' :: '0' :: '.' :: rest =>
    let ds := rest.takeWhile Char.isDigit
    if ds.length < 4 then none
    else
      match rest.dropWhile Char.isDigit with
      | '/' :: rest2 =>
        let r1 := rest2.takeWhile notWs
        match rest2.dropWhile notWs with
        | c :: rest3 =>
          if isNl c then
            let rest4 := (c :: rest3).dropWhile isWs
            let r2 := rest4.takeWhile notWs
            if r2.isEmpty then none
            else some ('1' :: '0' :: '.' :: (ds ++ '/' :: (r1 ++ r2)),
              rest4.dropWhile notWs)
          else none
        | [] => none
      | _ => none
  | _ => none

def rule3go : Nat → List Char → List Char
  | 0, cs => cs
  | _ + 1, [] => []
  | f + 1, c :: rest =>
    match rule3Match (c :: rest) with
    | some (r, rest2) => r ++ rule3go f rest2
    | none => c :: rule3go f rest

/-- Step (d): `re.sub(r'(10\.\d{4,}/\S+)-\s+(\d)', r'\1-\2', text)` tried
at the start of the list.  With `R` the maximal non-whitespace run after
`10.<digits>/`, the backtracking of `\S+-` succeeds exactly when `R` ends
in `'-'` and has length ≥ 2 (the char after the `'-'` must be
whitespace, so the `'-'` must close the run); then `\s+` (non-empty
whitespace run) and a digit.  Replacement deletes the whitespace. -/
def rule4Match (cs : List Char) : Option (List Char × List Char) :=
  match cs with
  | '1' :: '0' :: '.' :: rest =>
    let ds := rest.takeWhile Char.isDigit
    if ds.length < 4 then none
    else
      match rest.dropWhile Char.isDigit with
      | '/' :: rest2 =>
        let r := rest2.takeWhile notWs
        if 2 ≤ r.length && r.getLast? = some '-' then
          let rest3 := rest2.dropWhile notWs
          let w := rest3.takeWhile isWs
          if w.isEmpty then none
          else
            match rest3.dropWhile isWs with
            | d :: rest5 =>
              if d.isDigit then
                some ('1' :: '0' :: '.' :: (ds ++ '/' :: (r ++ [d])), rest5)
              else none
            | [] => none
        else none
      | _ => none
  | _ => none

def rule4go : Nat → List Char → List Char
  | 0, cs => cs
  | _ + 1, [] => []
  | f + 1, c :: rest =>
    match rule4Match (c :: rest) with
    | some (r, rest2) => r ++ rule4go f rest2
    | none => c :: rule4go f rest

def rule2 (cs : List Char) : List Char := rule2go cs.length cs

def rule3 (cs : List Char) : List Char := rule3go cs.length cs

def rule4 (cs : List Char) : List Char := rule4go cs.length cs

/-- `ReferenceExtractor._normalize_doi_text`. -/
def normalizeDoiText (s : String) : String :=
  ⟨rule4 (rule3 (rule2 (rule1 s.data)))⟩

/-! ## PDF-noise cleaning and DOI extraction (reference_extractor.py) -/

/-- Python `\w` (ASCII reading; the inputs involved are ASCII). -/
def isWord (c : Char) : Bool := c.isAlphanum || c = '_'

/-- Case-insensitive "pattern occurs at the front" (give the pattern in
lowercase). -/
def leadCI : List Char → List Char → Bool
  | [], _ => true
  | _ :: _, [] => false
  | p :: ps, c :: cs => p = c.toLower && leadCI ps cs

def lowerList (cs : List Char) : List Char := cs.map Char.toLower

def stripList (cs : List Char) : List Char :=
  ((cs.dropWhile isWs).reverse.dropWhile isWs).reverse

/-- Python `text.split('\n')`. -/
def splitNl : List Char → List (List Char)
  | [] => [[]]
  | c :: rest =>
    if c = '\n' then [] :: splitNl rest
    else
      match splitNl rest with
      | w :: ws => (c :: w) :: ws
      | [] => [[c]]

/-- Python `'\n'.join(...)`. -/
def joinNl : List (List Char) → List Char
  | [] => []
  | [l] => l
  | l :: rest => l ++ '\n' :: joinNl rest

/-- `^Vol\s*\d+.*$` (IGNORECASE) on one line. -/
def volPat (l : List Char) : Bool :=
  leadCI "vol".data l &&
  (match (l.drop 3).dropWhile isWs with
   | d :: _ => d.isDigit
   | [] => false)

/-- `^Volume\s*\d+.*$` (IGNORECASE) on one line. -/
def volumePat (l : List Char) : Bool :=
  leadCI "volume".data l &&
  (match (l.drop 6).dropWhile isWs with
   | d :: _ => d.isDigit
   | [] => false)

/-- `^\s*\d{1,3}\s*$` on one line. -/
def pageNumPat (l : List Char) : Bool :=
  let t := l.dropWhile isWs
  let ds := t.takeWhile Char.isDigit
  !ds.isEmpty && ds.length ≤ 3 && (t.dropWhile Char.isDigit).all isWs

/-- `^https?://[^\s]+\s*$` (case-sensitive) on one line. -/
def urlLinePat (l : List Char) : Bool :=
  let core : List Char → Bool := fun r =>
    !(r.takeWhile notWs).isEmpty && (r.dropWhile notWs).all isWs
  if listLead "https://".data l then core (l.drop 8)
  else if listLead "http://".data l then core (l.drop 7)
  else false

/-- `^Author.*manuscript.*$` (IGNORECASE) on one line. -/
def authorManuscriptPat (l : List Char) : Bool :=
  leadCI "author".data l && hasSub "manuscript".data (lowerList (l.drop 6))

/-- One line matches some pattern of `ReferenceExtractor.PDF_NOISE_PATTERNS`
(all are `^…$`-anchored with MULTILINE, so they act per line; their bodies
cannot cross a newline on the inputs involved). -/
def lineIsNoise (l : List Char) : Bool :=
  leadCI "downloaded from".data l ||
  leadCI "available at".data l ||
  leadCI "access provided by".data l ||
  volPat l || volumePat l ||
  leadCI "copyright".data l ||
  leadCI "all rights reserved".data l ||
  pageNumPat l ||
  urlLinePat l ||
  leadCI "this article".data l ||
  authorManuscriptPat l ||
  leadCI "funding".data l ||
  leadCI "conflict of interest".data l

/-- The hyphenation fix of `clean_pdf_noise`:
`re.sub(r'(\w)-\s*\n\s*(\w)', r'\1\2', text)`.  At a word char followed
by `'-'`, the pattern matches when the maximal whitespace run after the
`'-'` contains a `'\n'` and the next character after the run is a word
char; the hyphen and the whitespace are deleted. -/
def hyphenFixGo : Nat → List Char → List Char
  | 0, cs => cs
  | _ + 1, [] => []
  | f + 1, c :: rest =>
    match rest with
    | '-' :: rest2 =>
      if isWord c && (rest2.takeWhile isWs).contains '\n' then
        match rest2.dropWhile isWs with
        | d :: rest3 =>
          if isWord d then c :: d :: hyphenFixGo f rest3
          else c :: hyphenFixGo f rest
        | [] => c :: hyphenFixGo f rest
      else c :: hyphenFixGo f rest
    | _ => c :: hyphenFixGo f rest

/-- `re.sub(r'\n{3,}', '\n\n', text)`. -/
def nlCollapseGo : Nat → List Char → List Char
  | 0, cs => cs
  | _ + 1, [] => []
  | f + 1, c :: rest =>
    if c = '\n' && 3 ≤ ((c :: rest).takeWhile (· = '\n')).length then
      '\n' :: '\n' :: nlCollapseGo f ((c :: rest).dropWhile (· = '\n'))
    else c :: nlCollapseGo f rest

/-- `re.sub(r' {2,}', ' ', text)`. -/
def spCollapseGo : Nat → List Char → List Char
  | 0, cs => cs
  | _ + 1, [] => []
  | f + 1, c :: rest =>
    if c = ' ' && rest.head? = some ' ' then
      ' ' :: spCollapseGo f (rest.dropWhile (· = ' '))
    else c :: spCollapseGo f rest

/-- `ReferenceExtractor.clean_pdf_noise`. -/
def cleanPdfNoise (s : String) : String :=
  if s.isEmpty then s
  else
    let noi := joinNl ((splitNl s.data).map
      (fun l => if lineIsNoise l then [] else l))
    let hf := hyphenFixGo noi.length noi
    let nc := nlCollapseGo hf.length hf
    let sc := spCollapseGo nc.length nc
    let stripped := (splitNl sc).map stripList
    ⟨stripList (joinNl (stripped.filter (fun l => !l.isEmpty)))⟩

/-! ## DOI regex extraction (`DOI_PATTERN` and `_extract_doi`) -/

def isDoiSuffixChar (c : Char) : Bool := !isWs c && c ≠ ']' && c ≠ '>'

/-- `10\.\d{4,}/[^\s\]>]+` anchored at the start; returns the capture. -/
def parseDoiCore (cs : List Char) : Option (List Char) :=
  match cs with
  | '1' :: '0' :: '.' :: rest =>
    let ds := rest.takeWhile Char.isDigit
    if ds.length < 4 then none
    else
      match rest.dropWhile Char.isDigit with
      | '/' :: rest2 =>
        let suf := rest2.takeWhile isDoiSuffixChar
        if suf.isEmpty then none
        else some ('1' :: '0' :: '.' :: (ds ++ '/' :: suf))
      | _ => none
  | _ => none

/-- `(?:dx\.)?doi\.org/` then the DOI core (IGNORECASE). -/
def tryDoiOrg (cs : List Char) : Option (List Char) :=
  if leadCI "dx.doi.org/".data cs then parseDoiCore (cs.drop 11)
  else if leadCI "doi.org/".data cs then parseDoiCore (cs.drop 8)
  else none

/-- First alternative of `DOI_PATTERN`:
`(?:https?://)?(?:dx\.)?doi\.org/(10\.\d{4,}/[^\s\]>]+)`. -/
def tryAlt1 (cs : List Char) : Option (List Char) :=
  if leadCI "https://".data cs then tryDoiOrg (cs.drop 8)
  else if leadCI "http://".data cs then tryDoiOrg (cs.drop 7)
  else tryDoiOrg cs

/-- Second alternative: `doi:\s*(10\.\d{4,}/[^\s\]>]+)`. -/
def tryAlt2 (cs : List Char) : Option (List Char) :=
  if leadCI "doi:".data cs then parseDoiCore ((cs.drop 4).dropWhile isWs)
  else none

/-- Third alternative: `\bdoi\s*[=:]\s*(10\.\d{4,}/[^\s\]>]+)`;
`prevWord` says whether the previous character is a word character
(no word boundary then). -/
def tryAlt3 (prevWord : Bool) (cs : List Char) : Option (List Char) :=
  if prevWord then none
  else if leadCI "doi".data cs then
    match (cs.drop 3).dropWhile isWs with
    | c :: rest =>
      if c = '=' || c = ':' then parseDoiCore (rest.dropWhile isWs) else none
    | [] => none
  else none

/-- `DOI_PATTERN.search`: leftmost position wins, alternatives in order. -/
def doiSearchGo : Nat → Bool → List Char → Option (List Char)
  | 0, _, _ => none
  | _ + 1, _, [] => none
  | f + 1, prevWord, c :: rest =>
    match tryAlt1 (c :: rest) with
    | some g => some g
    | none =>
      match tryAlt2 (c :: rest) with
      | some g => some g
      | none =>
        match tryAlt3 prevWord (c :: rest) with
        | some g => some g
        | none => doiSearchGo f (isWord c) rest

def doiSearch (s : String) : Option (List Char) :=
  doiSearchGo (s.data.length + 1) false s.data

/-- `re.sub(r'[.,;:\s]+$', '', doi)`. -/
def isTrimChar (c : Char) : Bool :=
  c = '.' || c = ',' || c = ';' || c = ':' || isWs c

def trimDoi (cs : List Char) : List Char :=
  (cs.reverse.dropWhile isTrimChar).reverse

/-- `ReferenceExtractor._extract_doi`. -/
def extractDoi (text : String) : Option String :=
  let normalized := normalizeDoiText text
  match doiSearch normalized with
  | some g => some ⟨trimDoi g⟩
  | none =>
    if normalized ≠ text then
      match doiSearch text with
      | some g => some ⟨trimDoi g⟩
      | none => none
    else none

/-- The fields of `ReferenceExtractor.extract`'s result that the claims
C4 and C9 are about (`raw_text` and `doi`); the other field extractors
are independent of these two assignments. -/
structure ExtractResult where
  rawText : String
  doi : Option String
  deriving DecidableEq, Repr

/-- `ReferenceExtractor.extract`, restricted to the `raw_text` and `doi`
fields: `raw_text = raw_text.strip()` (line 130) and
`doi = self._extract_doi(self.clean_pdf_noise(raw_text))` (lines 127,
138–141). -/
def extract (rawText : String) : ExtractResult :=
  { rawText := stripStr rawText, doi := extractDoi (cleanPdfNoise rawText) }

/-! ## Truncated-DOI patterns (verification_engine.py, TRUNCATED_DOI_PATTERNS) -/

/-- `re.match(pattern, doi, re.IGNORECASE)` against the five patterns
`^10\.\d{4}/[a-z]$`, `^10\.\d{4}/[a-z]{1,2}$`, `^10\.\d{4}$`,
`^10\.\d{4}/[a-z]\.$`, `^10\.\d{4,}/978-$` (with IGNORECASE, `[a-z]`
also matches capitals). -/
def isTruncatedDoi (s : String) : Bool :=
  match s.data with
  | '1' :: '0' :: '.' :: rest =>
    let ds := rest.takeWhile Char.isDigit
    let tail := rest.dropWhile Char.isDigit
    (ds.length = 4 && tail.isEmpty) ||
    (match tail with
     | '/' :: suf =>
       (ds.length = 4 &&
         (match suf with
          | [c] => c.isAlpha
          | [c1, c2] => c1.isAlpha && (c2.isAlpha || c2 = '.')
          | _ => false)) ||
       (4 ≤ ds.length && suf = ['9', '7', '8', '-'])
     | _ => false)
  | _ => false

/-! ## C8: idempotence of DOI normalisation -/

theorem mem_of_mem_dropWhile {p : Char → Bool} {l : List Char} {c : Char}
    (h : c ∈ l.dropWhile p) : c ∈ l := by
  induction l with
  | nil => exact h
  | cons a t ih =>
    rw [List.dropWhile_cons] at h
    by_cases hp : p a = true
    · simp only [hp, if_true] at h
      exact List.mem_cons_of_mem _ (ih h)
    · simp only [hp, if_false] at h
      exact h

theorem takeWhile_nil_of_all {p : Char → Bool} {l : List Char}
    (h : ∀ c ∈ l, p c = false) : l.takeWhile p = [] := by
  cases l with
  | nil => rfl
  | cons a t =>
    rw [List.takeWhile_cons, h a (List.mem_cons_self a t)]
    rfl

theorem dropWhile_nil_of_all {p : Char → Bool} {l : List Char}
    (h : ∀ c ∈ l, p c = true) : l.dropWhile p = [] := by
  induction l with
  | nil => rfl
  | cons a t ih =>
    rw [List.dropWhile_cons, h a (List.mem_cons_self a t)]
    exact ih (fun c hc => h c (List.mem_cons_of_mem _ hc))

theorem rule2go_id (f : Nat) : ∀ (cs : List Char),
    (∀ c ∈ cs, isWs c = false) → rule2go f cs = cs := by
  induction f with
  | zero => intro cs _; rfl
  | succ f ih =>
    intro cs h
    cases cs with
    | nil => rfl
    | cons c rest =>
      have hrest : ∀ x ∈ rest, isWs x = false :=
        fun x hx => h x (List.mem_cons_of_mem _ hx)
      have hta : rest.takeWhile isWs = [] := takeWhile_nil_of_all hrest
      simp only [rule2go, hta, List.any_nil, Bool.and_false, Bool.false_eq_true,
        if_false, ih rest hrest]

theorem rule3Match_eq_none (cs : List Char)
    (h : ∀ c ∈ cs, isWs c = false) : rule3Match cs = none := by
  unfold rule3Match
  split
  · split
    · rename_i rest _ rest2 heq
      have h2 : List.dropWhile notWs rest2 = [] := by
        refine dropWhile_nil_of_all ?_
        intro c hc
        have hmem : c ∈ rest.dropWhile Char.isDigit := by
          rw [heq]; exact List.mem_cons_of_mem _ hc
        have hr : c ∈ rest := mem_of_mem_dropWhile hmem
        simp [notWs, h c (List.mem_cons_of_mem _ (List.mem_cons_of_mem _
          (List.mem_cons_of_mem _ hr)))]
      rw [h2]
      simp [ite_self]
    · simp [ite_self]
  · rfl

theorem rule3go_id (f : Nat) : ∀ (cs : List Char),
    (∀ c ∈ cs, isWs c = false) → rule3go f cs = cs := by
  induction f with
  | zero => intro cs _; rfl
  | succ f ih =>
    intro cs h
    cases cs with
    | nil => rfl
    | cons c rest =>
      simp only [rule3go, rule3Match_eq_none (c :: rest) h,
        ih rest (fun x hx => h x (List.mem_cons_of_mem _ hx))]

theorem rule4Match_eq_none (cs : List Char)
    (h : ∀ c ∈ cs, isWs c = false) : rule4Match cs = none := by
  unfold rule4Match
  split
  · split
    · rename_i rest _ rest2 heq
      have h2 : List.dropWhile notWs rest2 = [] := by
        refine dropWhile_nil_of_all ?_
        intro c hc
        have hmem : c ∈ rest.dropWhile Char.isDigit := by
          rw [heq]; exact List.mem_cons_of_mem _ hc
        have hr : c ∈ rest := mem_of_mem_dropWhile hmem
        simp [notWs, h c (List.mem_cons_of_mem _ (List.mem_cons_of_mem _
          (List.mem_cons_of_mem _ hr)))]
      rw [h2]
      simp [ite_self]
    · simp [ite_self]
  · rfl

theorem rule4go_id (f : Nat) : ∀ (cs : List Char),
    (∀ c ∈ cs, isWs c = false) → rule4go f cs = cs := by
  induction f with
  | zero => intro cs _; rfl
  | succ f ih =>
    intro cs h
    cases cs with
    | nil => rfl
    | cons c rest =>
      simp only [rule4go, rule4Match_eq_none (c :: rest) h,
        ih rest (fun x hx => h x (List.mem_cons_of_mem _ hx))]

set_option maxRecDepth 40000 in
/-- C8, counterexample: DOI normalisation is not idempotent.  On
`"10.1234/a- 1- 2"` the first pass of the space-split repair consumes the
span covering the first artifact, so the second artifact is only repaired
by a second pass: one application yields `"10.1234/a-1- 2"`, two yield
`"10.1234/a-1-2"`. -/
theorem c8_counterexample :
    normalizeDoiText (normalizeDoiText "10.1234/a- 1- 2") ≠
      normalizeDoiText "10.1234/a- 1- 2" := by decide

/-- C8 (amended): `_normalize_doi_text` is idempotent on every input
containing no whitespace character (all four rewrite rules need
whitespace to fire, so one pass only removes soft hyphens, which is an
idempotent filter); on general inputs idempotence fails (see the
counterexample). -/
theorem rule2_id (cs : List Char) (h : ∀ c ∈ cs, isWs c = false) :
    rule2 cs = cs := rule2go_id _ cs h

theorem rule3_id (cs : List Char) (h : ∀ c ∈ cs, isWs c = false) :
    rule3 cs = cs := rule3go_id _ cs h

theorem rule4_id (cs : List Char) (h : ∀ c ∈ cs, isWs c = false) :
    rule4 cs = cs := rule4go_id _ cs h

theorem rule1_idem (cs : List Char) : rule1 (rule1 cs) = rule1 cs := by
  unfold rule1
  exact List.filter_eq_self.mpr (fun a ha => (List.mem_filter.mp ha).2)

theorem c8_normalize_idempotent_amended (s : String)
    (h : ∀ c ∈ s.data, isWs c = false) :
    normalizeDoiText (normalizeDoiText s) = normalizeDoiText s := by
  have key : ∀ (t : String), (∀ c ∈ t.data, isWs c = false) →
      normalizeDoiText t = ⟨rule1 t.data⟩ := by
    intro t ht
    have h1 : ∀ c ∈ rule1 t.data, isWs c = false :=
      fun c hc => ht c (List.mem_of_mem_filter hc)
    unfold normalizeDoiText
    rw [rule2_id _ h1, rule3_id _ h1, rule4_id _ h1]
  have h1 : ∀ c ∈ rule1 s.data, isWs c = false :=
    fun c hc => h c (List.mem_of_mem_filter hc)
  rw [key s h, key ⟨rule1 s.data⟩ h1]
  exact congrArg String.mk (rule1_idem s.data)

/-- Witness for `c8_normalize_idempotent_amended` at a concrete
whitespace-free DOI string. -/
theorem c8_normalize_idempotent_amended_witness :
    (∀ c ∈ ("10.1186/s12909-024-06399-7" : String).data, isWs c = false) ∧
    normalizeDoiText (normalizeDoiText "10.1186/s12909-024-06399-7") =
      normalizeDoiText "10.1186/s12909-024-06399-7" :=
  ⟨by decide, c8_normalize_idempotent_amended "10.1186/s12909-024-06399-7" (by decide)⟩

/-! ## C4: the split-DOI repair scenario -/

set_option maxRecDepth 200000 in
/-- C4 (the code evaluated at the failing input): on a citation
containing the literal `https://doi.org/10.1186/s12909-` + newline +
`024-06399-7`, `extract` returns DOI `10.1186/s12909024-06399-7` — the
hyphen is lost, because `clean_pdf_noise`'s hyphenation repair
(`(\w)-\s*\n\s*(\w)` → `\1\2`) runs before `_normalize_doi_text` and
deletes the hyphen together with the line break, while
`_normalize_doi_text` applied to the same text (third conjunct, its own
docstring's example) would repair the DOI with the hyphen preserved. -/
theorem c4_split_doi_hyphen_lost :
    (extract "Johnson, M. A. (2024). Some medical research paper. Medical Journal, 10(2). https://doi.org/10.1186/s12909-\n024-06399-7").doi
      = some "10.1186/s12909024-06399-7" ∧
    ("10.1186/s12909024-06399-7" : String) ≠ "10.1186/s12909-024-06399-7" ∧
    normalizeDoiText "Medical Journal, 10(2). https://doi.org/10.1186/s12909-\n024-06399-7" =
      "Medical Journal, 10(2). https://doi.org/10.1186/s12909-024-06399-7" := by
  refine ⟨by decide, by decide, by decide⟩

/-! ## C9: raw_text preservation -/

set_option maxRecDepth 200000 in
/-- C9, counterexample: `extract` does not keep `raw_text` equal to the
input character for character — it stores `raw_text.strip()`, so an
input with trailing whitespace is modified. -/
theorem c9_counterexample :
    (extract "Smith, J. A., & Doe, M. B. (2023). Effects of yoga. Journal of CP, 79(3), 456-478. ").rawText ≠
      "Smith, J. A., & Doe, M. B. (2023). Effects of yoga. Journal of CP, 79(3), 456-478. " := by
  decide

theorem dropWhile_id_of_head {p : Char → Bool} {l : List Char}
    (h : ∀ c, l.head? = some c → p c = false) : l.dropWhile p = l := by
  cases l with
  | nil => rfl
  | cons a t =>
    rw [List.dropWhile_cons, h a rfl]
    rfl

/-- C9 (amended): `extract` stores `raw_text.strip()` — the original
input with leading and trailing whitespace removed and otherwise
untouched; in particular an input with no leading or trailing whitespace
is preserved verbatim.  All other normalisation (noise cleaning, DOI
repair) happens on the derived cleaned copy only. -/
theorem c9_raw_text_amended (s : String)
    (h1 : ∀ c, s.data.head? = some c → isWs c = false)
    (h2 : ∀ c, s.data.getLast? = some c → isWs c = false) :
    (extract s).rawText = stripStr s ∧ (extract s).rawText = s := by
  refine ⟨rfl, ?_⟩
  show stripStr s = s
  unfold stripStr
  rw [dropWhile_id_of_head h1]
  rw [dropWhile_id_of_head (fun c hc => h2 c (by rwa [← List.head?_reverse]))]
  rw [List.reverse_reverse]

/-- Witness for `c9_raw_text_amended` on an input with no leading or
trailing whitespace. -/
theorem c9_raw_text_amended_witness :
    (extract "Smith, J. (2020). A study. Journal, 1(1), 1-2.").rawText =
      stripStr "Smith, J. (2020). A study. Journal, 1(1), 1-2." ∧
    (extract "Smith, J. (2020). A study. Journal, 1(1), 1-2.").rawText =
      "Smith, J. (2020). A study. Journal, 1(1), 1-2." :=
  c9_raw_text_amended "Smith, J. (2020). A study. Journal, 1(1), 1-2."
    (by decide) (by decide)

/-! ## C6: cache key (`_get_cache_key`, identical in both engine copies) -/

/-- `VerificationEngine._get_cache_key`. -/
def getCacheKey (ref : ParsedReference) : String :=
  let parts : List String :=
    (if optTruthy ref.doi then ["doi:" ++ getS ref.doi] else []) ++
    (if optTruthy ref.pmid then ["pmid:" ++ getS ref.pmid] else []) ++
    (if optTruthy ref.title then ["title:" ++ (getS ref.title).take 50] else []) ++
    (if yTruthy ref.year then ["year:" ++ toString (ref.year.getD 0)] else [])
  if !parts.isEmpty then String.intercalate "|" parts else ref.raw_text.take 100

def c6ref : ParsedReference :=
  { raw_text := "x", doi := some "10.1/ab", pmid := some "123" }

/-- C6, counterexample: for a reference with both a DOI and a PMID the
cache key is the `|`-join of *all* non-empty components, not the *first*
non-empty one. -/
theorem c6_counterexample :
    getCacheKey c6ref = "doi:10.1/ab|pmid:123" ∧
    getCacheKey c6ref ≠ "doi:10.1/ab" := by
  exact ⟨by decide, by decide⟩

/-- Modelled from the amended claim's words: the cache key is the
`'|'`-join of all the non-empty components `doi:<doi>`, `pmid:<pmid>`,
`title:<first 50 characters of the title>`, `year:<year>`, and the first
100 characters of `raw_text` when all four are empty. -/
def cacheKeySpec (ref : ParsedReference) : String :=
  let comps : List (Option String) :=
    [ if optTruthy ref.doi then some ("doi:" ++ getS ref.doi) else none,
      if optTruthy ref.pmid then some ("pmid:" ++ getS ref.pmid) else none,
      if optTruthy ref.title then some ("title:" ++ (getS ref.title).take 50) else none,
      if yTruthy ref.year then some ("year:" ++ toString (ref.year.getD 0)) else none ]
  let present := comps.filterMap id
  if present.isEmpty then ref.raw_text.take 100
  else String.intercalate "|" present

/-- C6 (amended): the cache key is the `'|'`-join of all non-empty
components (in the order doi, pmid, title prefix, year), with the
raw_text prefix as fallback, and the derivation is a function of the
ParsedReference — equal references give equal keys. -/
theorem c6_cache_key_amended (ref : ParsedReference) :
    getCacheKey ref = cacheKeySpec ref ∧
    (∀ r2 : ParsedReference, ref = r2 → getCacheKey ref = getCacheKey r2) := by
  constructor
  · unfold getCacheKey cacheKeySpec
    split_ifs <;> simp_all [List.filterMap, String.intercalate]
  · intro r2 h
    rw [h]

/-- Witness for `c6_cache_key_amended` at a concrete reference. -/
theorem c6_cache_key_amended_witness :
    getCacheKey c6ref = cacheKeySpec c6ref ∧
    getCacheKey c6ref = getCacheKey c6ref :=
  ⟨(c6_cache_key_amended c6ref).1, (c6_cache_key_amended c6ref).2 c6ref rfl⟩

/-! ## VerificationResult and the batch analyzer -/

/-- The `manual_verify_links` entries populated by step 5 of `verify`
(the percent-encoded URL text itself is not inspected by any claim). -/
inductive LinkKind where
  | googleScholar
  | crossrefSearchLink
  | doiResolver
  deriving DecidableEq, Repr

/-- `VerificationResult` dataclass of verification_engine.py. -/
structure VerificationResult where
  status : VerificationStatus
  confidence : ℚ
  pubmed_match : Option PubMedMatch := none
  crossref_match : Option CrossRefMatch := none
  doi_valid : Option Bool := none
  discrepancies : List DiscKind := []
  fake_indicators : List IndKind := []
  false_positive_warnings : List WarnKind := []
  manual_verify_links : List LinkKind := []
  verification_sources : List String := []
  error_message : Option String := none
  deriving DecidableEq, Repr

/-- The recommendation prose of `analyze_batch_results`, by branch. -/
inductive RecKind where
  | noRefs
  | layoutIssue
  | greyHeavy
  | fakeHeavy
  | verifiedHeavy
  | mixed
  deriving DecidableEq, Repr

structure BatchAnalysis where
  likely_layout_issue : Bool
  failure_rate : ℚ
  recommendation : RecKind
  total_references : Nat
  not_found : Nat
  suspicious : Nat
  verified : Nat
  grey_lit : Nat
  fake : Nat
  deriving DecidableEq, Repr

def countStatus (results : List VerificationResult)
    (s : VerificationStatus) : Nat :=
  (results.filter (fun r => r.status = s)).length

/-- `VerificationEngine.analyze_batch_results` (the numeric fields and
the branch taken; the prose recommendation strings are replaced by
`RecKind`). -/
def analyzeBatchResults (results : List VerificationResult) : BatchAnalysis :=
  if results.isEmpty then
    { likely_layout_issue := false, failure_rate := 0,
      recommendation := .noRefs, total_references := 0, not_found := 0,
      suspicious := 0, verified := 0, grey_lit := 0, fake := 0 }
  else
    let total := results.length
    let notFound := countStatus results .NOT_FOUND
    let suspicious := countStatus results .SUSPICIOUS
    let verified := countStatus results .VERIFIED +
      countStatus results .VERIFIED_LEGACY_DOI
    let greyLit := countStatus results .GREY_LITERATURE
    let fake := countStatus results .DEFINITE_FAKE
    let failureRate : ℚ := ((notFound : ℚ) + (suspicious : ℚ)) / (total : ℚ)
    { likely_layout_issue :=
        if 7/10 ≤ failureRate ∧ fake = 0 then true else false,
      failure_rate := failureRate,
      recommendation :=
        if 7/10 ≤ failureRate ∧ fake = 0 then RecKind.layoutIssue
        else if 1/2 ≤ failureRate ∧ (total : ℚ) * (3/10) ≤ (greyLit : ℚ) then
          RecKind.greyHeavy
        else if (total : ℚ) * (3/10) ≤ (fake : ℚ) then RecKind.fakeHeavy
        else if (total : ℚ) * (8/10) ≤ (verified : ℚ) then RecKind.verifiedHeavy
        else RecKind.mixed,
      total_references := total, not_found := notFound,
      suspicious := suspicious, verified := verified, grey_lit := greyLit,
      fake := fake }

/-- C10: for every non-empty batch, `failure_rate` is
(NOT_FOUND + SUSPICIOUS) / total, and `likely_layout_issue` is true
exactly when the failure rate is at least 0.70 and there are no
DEFINITE_FAKE results. -/
theorem c10_batch_layout (results : List VerificationResult)
    (h : results ≠ []) :
    (analyzeBatchResults results).failure_rate =
      ((countStatus results .NOT_FOUND : ℚ) +
        (countStatus results .SUSPICIOUS : ℚ)) / (results.length : ℚ) ∧
    ((analyzeBatchResults results).likely_layout_issue = true ↔
      (7/10 ≤ ((countStatus results .NOT_FOUND : ℚ) +
          (countStatus results .SUSPICIOUS : ℚ)) / (results.length : ℚ) ∧
        countStatus results .DEFINITE_FAKE = 0)) := by
  have hne : results.isEmpty = false := by
    cases results with
    | nil => exact absurd rfl h
    | cons a t => rfl
  unfold analyzeBatchResults
  rw [hne]
  constructor
  · rfl
  · simp only [Bool.false_eq_true, if_false]
    split_ifs with hc
    · simp [hc]
    · simp [hc]

def c10result (s : VerificationStatus) : VerificationResult :=
  { status := s, confidence := 0 }

def c10batch : List VerificationResult :=
  List.replicate 15 (c10result .NOT_FOUND) ++
    List.replicate 5 (c10result .VERIFIED)

/-- Witness for `c10_batch_layout`: 20 results with 15 NOT_FOUND,
0 DEFINITE_FAKE and 5 VERIFIED give failure_rate 0.75 and
likely_layout_issue true. -/
theorem c10_batch_layout_witness :
    c10batch ≠ [] ∧
    (analyzeBatchResults c10batch).failure_rate = 3/4 ∧
    (analyzeBatchResults c10batch).likely_layout_issue = true := by
  have h := c10_batch_layout c10batch (by decide)
  have hnf : countStatus c10batch .NOT_FOUND = 15 := by decide
  have hsus : countStatus c10batch .SUSPICIOUS = 0 := by decide
  have hfake : countStatus c10batch .DEFINITE_FAKE = 0 := by decide
  have hlen : c10batch.length = 20 := by decide
  refine ⟨by decide, ?_, ?_⟩
  · rw [h.1, hnf, hsus, hlen]
    norm_num
  · refine h.2.mpr ⟨?_, hfake⟩
    rw [hnf, hsus, hlen]
    norm_num

/-! ## Keyword sets and source-type probes (verification_engine.py 117–190, 569–684) -/

def medicalJournalKeywords : List String :=
  ["medicine", "medical", "clinical", "health", "disease", "therapy",
   "therapeutic", "pharmaceutical", "drug", "cancer", "cardiology",
   "neurology", "surgery", "nursing", "psychiatry", "psychology",
   "pediatric", "lancet", "bmj", "jama", "nejm", "annals", "archives",
   "journal of biological", "biochem", "molecular", "cell", "genetics",
   "immunology", "infection", "virus", "pathology", "pharmacology",
   "toxicology", "epidemiology", "public health", "nutrition", "obesity",
   "diabetes", "heart", "lung", "kidney", "liver", "brain", "blood",
   "bone", "skin", "eye", "ear", "dental", "oral", "rehabilitation",
   "physical therapy", "occupational therapy", "radiology", "imaging",
   "ultrasound", "mri", "oncology", "hospice", "palliative"]

def nonMedicalIndicators : List String :=
  ["computer", "computing", "software", "information system",
   "artificial intelligence", "machine learning", "data science",
   "engineering", "physics", "chemistry", "materials", "education",
   "educational", "learning", "teaching", "pedagogy", "curriculum",
   "business", "management", "economics", "finance", "marketing",
   "organization", "social", "sociology", "anthropology", "political",
   "law", "legal", "humanities", "philosophy", "ethics", "literature",
   "linguistics", "history", "art", "music", "environment", "ecology",
   "sustainability", "energy", "renewable", "climate", "expert systems",
   "decision support", "automation", "robotics", "ieee", "acm"]

def greyLiteratureKeywords : List String :=
  ["who", "world health organization", "ahrq", "agency for healthcare",
   "cdc", "centers for disease control", "nih", "national institutes",
   "fda", "food and drug administration", "ema",
   "european medicines agency", "nhs", "national health service",
   "public health england", "public health agency", "department of health",
   "ministry of health", "health canada", "guideline", "guidelines",
   "guidance", "recommendation", "recommendations", "policy",
   "policy brief", "white paper", "technical report", "consensus statement",
   "position statement", "practice parameter", "clinical pathway",
   "cochrane", "nice", "sign", "prisma", "consort", "strobe", "moose",
   "stard", "tripod", "arrive", "equator", "grade", "agree", "icd-10",
   "icd-11", "dsm-5", "dsm-iv", "icf", "snomed"]

def bookSoftwareKeywords : List String :=
  ["handbook", "textbook", "manual", "edition", "ed.", "eds.", "editor",
   "editors", "chapter", "volume", "vol.", "publisher", "press", "isbn",
   "oxford", "cambridge", "springer", "wiley", "elsevier", "mcgraw-hill",
   "spss", "stata", "r software", "r core team", "r foundation", "python",
   "mplus", "amos", "sas", "graphpad", "prism", "endnote", "nvivo",
   "revman", "review manager", "gpower", "jamovi", "ibm corp",
   "microsoft", "version", "software"]

def lowQualityIndicators : List String :=
  ["arxiv", "biorxiv", "medrxiv", "ssrn", "preprint", "preprints",
   "chemrxiv", "psyarxiv", "osf preprints", "researchgate",
   "academia.edu", "mendeley", "wikipedia", "medium.com", "blog",
   "weblog", "youtube", "podcast", "twitter", "x.com", "news", "times",
   "post", "bbc", "cnn", "reuters"]

def anyKeywordIn (kws : List String) (text : String) : Bool :=
  kws.any (fun k => strHas text k)

/-- `_is_non_medical_journal`. -/
def isNonMedicalJournal (journal : String) : Bool :=
  let jl := lowerStr journal
  if anyKeywordIn medicalJournalKeywords jl then false
  else anyKeywordIn nonMedicalIndicators jl

/-- The lowercased `raw_text + " " + journal + " " + title` blob that
`_is_grey_literature` and `_is_book_or_software` scan. -/
def greyBookText (ref : ParsedReference) : String :=
  lowerStr (ref.raw_text ++ " " ++ getS ref.journal ++ " " ++ getS ref.title)

def isGreyLiterature (ref : ParsedReference) : Bool :=
  anyKeywordIn greyLiteratureKeywords (greyBookText ref)

def isBookOrSoftware (ref : ParsedReference) : Bool :=
  anyKeywordIn bookSoftwareKeywords (greyBookText ref)

/-- `_is_low_quality_source` (scans raw_text + journal + doi). -/
def isLowQualitySource (ref : ParsedReference) : Bool :=
  anyKeywordIn lowQualityIndicators
    (lowerStr (ref.raw_text ++ " " ++ getS ref.journal ++ " " ++ getS ref.doi))

/-- `_is_recent_paper` with the default 18-month window
(`ref_month` is assumed to be 6, as in the code). -/
def isRecentPaper (currentYear currentMonth : Int)
    (ref : ParsedReference) : Bool :=
  match ref.year with
  | none => false
  | some y =>
    if y = 0 then false
    else (currentYear - y) * 12 + (currentMonth - 6) ≤ 18

/-- `_is_field_mismatch`. -/
def isFieldMismatch (ref : ParsedReference) (m : PubMedMatch) : Bool :=
  let rj := lowerStr (getS ref.journal)
  let mj := lowerStr (getS m.journal)
  let refMed := anyKeywordIn medicalJournalKeywords rj
  let matchMed := anyKeywordIn medicalJournalKeywords mj
  let refNonMed := anyKeywordIn nonMedicalIndicators rj
  let matchNonMed := anyKeywordIn nonMedicalIndicators mj
  (refNonMed && matchMed) || (refMed && matchNonMed)

/-! ## Adapter oracles and the verification cascade (verify, lines 273–567)

Each oracle models one adapter helper at its HTTP boundary: `.ok` carries
the decoded response the Python helper would return, `.error e` models an
exception from the adapter call escaping into `verify`'s `try` block (an
unrecovered adapter failure).  The pure post-processing the helpers do on
the decoded response (match construction, confidence scoring, result
filtering) is embedded below, not part of the oracle. -/

/-- The metadata dict produced by `_check_doi_via_crossref` /
`_check_doi_via_openalex` / `_multi_source_doi_check`. -/
structure DoiMetadata where
  title : String := ""
  authors : List String := []
  year : Option Int := none
  journal : Option String := none
  deriving DecidableEq, Repr

/-- The fields of the dict returned by `_check_via_europe_pmc` that
`verify` reads. -/
structure EuropePmcResult where
  pmid : Option String := none
  title : String := ""
  deriving DecidableEq, Repr

/-- One OpenAlex work item of the `results` list that
`_check_openalex_text_search` filters. -/
structure OpenAlexWork where
  title : String := ""
  authors : List String := []
  deriving DecidableEq, Repr

structure AdapterEnv where
  currentYear : Int
  currentMonth : Int
  sim : String → String → ℚ
  doiHead : String → Except String (Option Bool)
  crossrefByDoi : String → Except String (Option DoiMetadata)
  openalexByDoi : String → Except String (Option DoiMetadata)
  pubmedArticle : ParsedReference → Except String (Option PubMedArticle)
  crossrefSearchItem : ParsedReference → Except String (Option CrossRefItem)
  europePmcSearch : ParsedReference → Except String (Option EuropePmcResult)
  openalexWorks : ParsedReference → Except String (List OpenAlexWork)

/-- `_check_pubmed` returns None without any network call when the query
would be empty (no title, no authors, no year). -/
def pubmedQueryEmpty (ref : ParsedReference) : Bool :=
  !optTruthy ref.title && ref.authors.isEmpty && !yTruthy ref.year

/-- `_check_crossref` / `_check_via_europe_pmc` query guard (title or
authors). -/
def crossrefQueryEmpty (ref : ParsedReference) : Bool :=
  !optTruthy ref.title && ref.authors.isEmpty

/-- The `PubMedMatch` `_check_pubmed` builds from a fetched article. -/
def mkPubMedMatch (sim : String → String → ℚ) (ref : ParsedReference)
    (article : PubMedArticle) : PubMedMatch :=
  { pmid := article.pmid, title := article.title,
    authors := article.authors,
    year := article.pub_date.bind (fun pd => findYear4 pd),
    journal := article.journal, doi := article.doi,
    confidence := calcMatchConfidence sim ref article }

/-- The author display names `_check_crossref` builds from a work item. -/
def crossrefItemAuthors (item : CrossRefItem) : List String :=
  item.authors.filterMap (fun a =>
    if optTruthy a.family then
      some (if optTruthy a.given then
        getS a.given ++ " " ++ getS a.family else getS a.family)
    else none)

/-- The `CrossRefMatch` `_check_crossref` builds from a work item. -/
def mkCrossRefMatch (sim : String → String → ℚ) (ref : ParsedReference)
    (item : CrossRefItem) : CrossRefMatch :=
  { doi := item.doi,
    title := (match item.titles with | t :: _ => t | [] => ""),
    authors := crossrefItemAuthors item,
    year := crossrefItemYear item,
    journal := (match item.containerTitles with | t :: _ => some t | [] => none),
    confidence := calcCrossrefConfidence sim ref item }

/-- The author filter of `_check_openalex_text_search` (first-author
surname must appear, as a substring, in some lowercased display name). -/
def openalexAuthorOk (ref : ParsedReference) (w : OpenAlexWork) : Bool :=
  if !ref.authors.isEmpty && !w.authors.isEmpty then
    let rf := stripStr (lowerStr (beforeComma (ref.authors.headD "")))
    w.authors.any (fun a => strHas (lowerStr a) rf)
  else true

/-- The result-selection loop of `_check_openalex_text_search`: the first
work with raw title similarity ≥ 0.60 and a passing author check. -/
def openalexPick (sim : String → String → ℚ) (ref : ParsedReference)
    (works : List OpenAlexWork) : Option OpenAlexWork :=
  works.find? (fun w =>
    (3/5 ≤ sim (getS ref.title) w.title : Bool) && openalexAuthorOk ref w)

/-- The mutable local state of `verify` threaded through the cascade. -/
structure VAcc where
  best : ℚ := 0
  sources : List String := []
  disc : List DiscKind := []
  fake : List IndKind := []
  warns : List WarnKind := []
  pm : Option PubMedMatch := none
  cm : Option CrossRefMatch := none
  doiValid : Option Bool := none
  trace : List NetCall := []
  deriving DecidableEq, Repr

/-- Error payload: the exception message together with the
`sources_checked` accumulated when it was raised (read by the `except`
branch of `verify`). -/
abbrev VErr := String × List String

/-- Step 0 of `verify` (lines 307–318): truncated-DOI and future-date
fake indicators. -/
def step0Indicators (currentYear : Int) (ref : ParsedReference) :
    List IndKind :=
  (if optTruthy ref.doi && isTruncatedDoi (getS ref.doi) then
    [IndKind.truncatedDoi] else []) ++
  (if yTruthy ref.year && currentYear < ref.year.getD 0 then
    [IndKind.futureDate] else [])

/-- `_multi_source_doi_check` (CrossRef-by-DOI first, then
OpenAlex-by-DOI), with the network calls issued. -/
def multiSourceDoiCheck (env : AdapterEnv) (d : String) :
    Except String (Bool × Option DoiMetadata × List NetCall) :=
  match env.crossrefByDoi d with
  | .error e => .error e
  | .ok (some md) => .ok (true, some md, [NetCall.crossrefDoi d])
  | .ok none =>
    match env.openalexByDoi d with
    | .error e => .error e
    | .ok (some md) =>
      .ok (true, some md, [NetCall.crossrefDoi d, NetCall.openalexDoi d])
    | .ok none =>
      .ok (false, none, [NetCall.crossrefDoi d, NetCall.openalexDoi d])

/-- Frankenstein detection (lines 351–359): fires only when `doi_valid`
is truthy, metadata is present with a truthy title, the citation has a
title, and the title similarity is below 0.30. -/
def frankAdd (env : AdapterEnv) (ref : ParsedReference) (dv : Option Bool)
    (md : Option DoiMetadata) (fake : List IndKind) : List IndKind :=
  if (dv = some true : Bool) && md.isSome && optTruthy ref.title then
    match md with
    | some m =>
      if !m.title.isEmpty then
        if env.sim (lowerStr (getS ref.title)) (lowerStr m.title) < 3/10 then
          fake ++ [IndKind.frankenstein]
        else fake
      else fake
    | none => fake
  else fake

/-- Step 1 of `verify` (lines 320–359): DOI resolution with multi-source
fallback.  Skipped entirely — no network call, `doi_valid` untouched —
when there is no DOI or a truncated-DOI indicator is present. -/
def doiStep (env : AdapterEnv) (ref : ParsedReference) (acc : VAcc) :
    Except VErr VAcc :=
  if optTruthy ref.doi && !acc.fake.contains IndKind.truncatedDoi then
    let d := getS ref.doi
    match env.doiHead d with
    | .error e => .error (e, acc.sources)
    | .ok hv =>
      let a1 := { acc with
        sources := acc.sources ++ ["DOI.org"],
        trace := acc.trace ++ [NetCall.doiHead d] }
      match hv with
      | some true =>
        match multiSourceDoiCheck env d with
        | .error e => .error (e, a1.sources)
        | .ok (_, md, calls) =>
          let a2 := { a1 with
            best := max a1.best (9/10),
            doiValid := some true, trace := a1.trace ++ calls }
          .ok { a2 with fake := frankAdd env ref (some true) md a2.fake }
      | some false =>
        match multiSourceDoiCheck env d with
        | .error e => .error (e, a1.sources)
        | .ok (ex, md, calls) =>
          let a2 := { a1 with
            sources := a1.sources ++ ["CrossRef-DOI", "OpenAlex"],
            trace := a1.trace ++ calls }
          if ex then
            let a3 := { a2 with
              doiValid := some true,
              best := max a2.best (17/20) }
            .ok { a3 with fake := frankAdd env ref (some true) md a3.fake }
          else
            let a3 := { a2 with
              doiValid := some false,
              disc := a2.disc ++ [DiscKind.doiNotResolve] }
            .ok { a3 with fake := frankAdd env ref (some false) md a3.fake }
      | none =>
        match multiSourceDoiCheck env d with
        | .error e => .error (e, a1.sources)
        | .ok (ex, md, calls) =>
          let a2 := { a1 with trace := a1.trace ++ calls }
          if ex then
            let a3 := { a2 with
              doiValid := some true,
              best := max a2.best (17/20),
              sources := a2.sources ++ ["CrossRef-DOI"] }
            .ok { a3 with fake := frankAdd env ref (some true) md a3.fake }
          else
            .ok { a2 with fake := frankAdd env ref none md a2.fake }
  else .ok acc

/-- Step 2 of `verify` (lines 361–379): PubMed search. -/
def step2Pubmed (env : AdapterEnv) (ref : ParsedReference) (acc : VAcc) :
    Except VErr VAcc :=
  if pubmedQueryEmpty ref then
    .ok { acc with sources := acc.sources ++ ["PubMed"] }
  else
    match env.pubmedArticle ref with
    | .error e => .error (e, acc.sources)
    | .ok a? =>
      let a1 := { acc with
        sources := acc.sources ++ ["PubMed"],
        trace := acc.trace ++ [NetCall.pubmedSearch] }
      match a? with
      | none => .ok a1
      | some article =>
        let m := mkPubMedMatch env.sim ref article
        let a2 := { a1 with
          pm := some m, best := max a1.best m.confidence,
          disc := a1.disc ++ findDiscrepancies env.sim ref m }
        if optTruthy ref.doi && optTruthy m.doi &&
            !(lowerStr (getS ref.doi) = lowerStr (getS m.doi)) &&
            isFieldMismatch ref m then
          .ok { a2 with fake := a2.fake ++ [IndKind.doiFieldMismatch] }
        else .ok a2

/-- Python `ref.journal or crossref_match.journal or ""`. -/
def orElseStr (a b : Option String) : String :=
  if optTruthy a then getS a else if optTruthy b then getS b else ""

/-- Step 3 of `verify` (lines 381–395): CrossRef search, only while
confidence is below the verified threshold. -/
def step3Crossref (env : AdapterEnv) (ref : ParsedReference) (acc : VAcc) :
    Except VErr VAcc :=
  if acc.best < 4/5 then
    if crossrefQueryEmpty ref then
      .ok { acc with sources := acc.sources ++ ["CrossRef"] }
    else
      match env.crossrefSearchItem ref with
      | .error e => .error (e, acc.sources)
      | .ok it? =>
        let a1 := { acc with
          sources := acc.sources ++ ["CrossRef"],
          trace := acc.trace ++ [NetCall.crossrefSearch] }
        match it? with
        | none => .ok a1
        | some item =>
          let m := mkCrossRefMatch env.sim ref item
          let a2 := { a1 with cm := some m, best := max a1.best m.confidence }
          if (4/5 ≤ m.confidence : Bool) && acc.pm.isNone then
            if isNonMedicalJournal (orElseStr ref.journal m.journal) then
              .ok { a2 with warns := a2.warns ++ [WarnKind.crossrefNonMedical] }
            else .ok a2
          else .ok a2
  else .ok acc

/-- Step 3.5 of `verify` (lines 397–415): Europe PMC fallback. -/
def step35EuropePmc (env : AdapterEnv) (ref : ParsedReference) (acc : VAcc) :
    Except VErr VAcc :=
  if acc.best < 4/5 then
    if crossrefQueryEmpty ref then .ok acc
    else
      match env.europePmcSearch ref with
      | .error e => .error (e, acc.sources)
      | .ok none => .ok { acc with trace := acc.trace ++ [NetCall.europePmcSearch] }
      | .ok (some r) =>
        let a1 := { acc with
          sources := acc.sources ++ ["Europe PMC"],
          trace := acc.trace ++ [NetCall.europePmcSearch] }
        if !r.title.isEmpty && optTruthy ref.title then
          let t := env.sim (lowerStr (getS ref.title)) (lowerStr r.title)
          let a2 := { a1 with best := max a1.best (t * (4/5)) }
          if (4/5 ≤ t * (4/5) : Bool) && acc.pm.isNone then
            .ok { a2 with warns := a2.warns ++ [WarnKind.europePmcFound] }
          else .ok a2
        else .ok a1
  else .ok acc

/-- Step 3.6 of `verify` (lines 417–428): OpenAlex text search. -/
def step36OpenalexText (env : AdapterEnv) (ref : ParsedReference)
    (acc : VAcc) : Except VErr VAcc :=
  if acc.best < 4/5 then
    if !optTruthy ref.title then .ok acc
    else
      match env.openalexWorks ref with
      | .error e => .error (e, acc.sources)
      | .ok works =>
        let a1 := { acc with trace := acc.trace ++ [NetCall.openalexSearch] }
        match openalexPick env.sim ref works with
        | none => .ok a1
        | some _ =>
          .ok { a1 with
            sources := a1.sources ++ ["OpenAlex"],
            best := max a1.best (17/20),
            warns := a1.warns ++ [WarnKind.openalexFound] }
  else .ok acc

def webResourceMarkers : List String :=
  ["retrieved from", "accessed", "http://", "https://", ".gov", ".org/report"]

/-- Step 4 of `verify` (lines 430–455): LIKELY_VALID heuristics.  Each of
the three checks only appends a warning (the fields its condition reads —
year, pm, best, raw_text, journal — are untouched by the other two), so
the step is a single conditional append to `warns`. -/
def step4Heuristics (ref : ParsedReference) (acc : VAcc) : VAcc :=
  { acc with warns := acc.warns
      ++ (if yTruthy ref.year && ref.year.getD 0 < 1980 &&
            (match acc.pm with
             | some m => yTruthy m.year && 2000 < m.year.getD 0
             | none => false) then
          [WarnKind.classicWork] else [])
      ++ (if !ref.raw_text.isEmpty &&
            webResourceMarkers.any (fun k => strHas (lowerStr ref.raw_text) k) &&
            (acc.best < 1/2 : Bool) then
          [WarnKind.webResource] else [])
      ++ (if acc.pm.isNone && optTruthy ref.journal &&
            isNonMedicalJournal (getS ref.journal) then
          [WarnKind.nonMedicalJournal] else []) }

/-- Step 5 of `verify` (lines 457–463): manual verification links. -/
def mkLinks (ref : ParsedReference) : List LinkKind :=
  (if optTruthy ref.title then
    [LinkKind.googleScholar, LinkKind.crossrefSearchLink] else []) ++
  (if optTruthy ref.doi then [LinkKind.doiResolver] else [])

/-- The body of `VerificationEngine.verify` (everything inside the `try`
block), returning the assembled result and the network calls made. -/
def verifyBody (env : AdapterEnv) (ref : ParsedReference) :
    Except VErr (VerificationResult × List NetCall) :=
  let acc0 : VAcc := { fake := step0Indicators env.currentYear ref }
  match doiStep env ref acc0 with
  | .error e => .error e
  | .ok a1 =>
    match step2Pubmed env ref a1 with
    | .error e => .error e
    | .ok a2 =>
      match step3Crossref env ref a2 with
      | .error e => .error e
      | .ok a3 =>
        match step35EuropePmc env ref a3 with
        | .error e => .error e
        | .ok a4 =>
          match step36OpenalexText env ref a4 with
          | .error e => .error e
          | .ok a5 =>
            let a6 := step4Heuristics ref a5
            let g := isGreyLiterature ref
            let b := isBookOrSoftware ref
            let lq := isLowQualitySource ref
            let rc := isRecentPaper env.currentYear env.currentMonth ref
            let warnsNE := !a6.warns.isEmpty
            let status := classify a6.fake warnsNE a6.best
              (optTruthy ref.doi) a6.doiValid a6.pm.isSome g b lq rc
            let extra := classifyExtraWarns a6.fake warnsNE a6.best
              (optTruthy ref.doi) a6.doiValid a6.pm.isSome g b lq rc
            .ok ({ status := status, confidence := a6.best,
                   pubmed_match := a6.pm, crossref_match := a6.cm,
                   doi_valid := a6.doiValid, discrepancies := a6.disc,
                   fake_indicators := a6.fake,
                   false_positive_warnings := a6.warns ++ extra,
                   manual_verify_links := mkLinks ref,
                   verification_sources := a6.sources,
                   error_message := none }, a6.trace)

def cacheLookup :
    List (String × VerificationResult) → String → Option VerificationResult
  | [], _ => none
  | (k, v) :: rest, key => if k = key then some v else cacheLookup rest key

/-- `VerificationEngine.verify`: cache check first; on a miss the body
runs, any error is mapped to an ERROR result with `error_message` set,
and only the fully assembled result is inserted into the cache. -/
def verify (env : AdapterEnv) (cache : List (String × VerificationResult))
    (ref : ParsedReference) :
    VerificationResult × List (String × VerificationResult) :=
  let key := getCacheKey ref
  match cacheLookup cache key with
  | some r => (r, cache)
  | none =>
    let result :=
      match verifyBody env ref with
      | .ok out => out.1
      | .error es =>
        { status := VerificationStatus.ERROR, confidence := 0,
          error_message := some es.1, verification_sources := es.2 }
    (result, (key, result) :: cache)

/-! ## C3 and C5: cascade theorems -/

theorem doiStep_skip (env : AdapterEnv) (ref : ParsedReference) (acc : VAcc)
    (h : (optTruthy ref.doi &&
      !acc.fake.contains IndKind.truncatedDoi) = false) :
    doiStep env ref acc = .ok acc := by
  unfold doiStep
  rw [h]
  rfl

theorem filterDoiRes_pubmed :
    List.filter NetCall.isDoiResolution [NetCall.pubmedSearch] = [] := rfl

theorem filterDoiRes_crossref :
    List.filter NetCall.isDoiResolution [NetCall.crossrefSearch] = [] := rfl

theorem filterDoiRes_europe :
    List.filter NetCall.isDoiResolution [NetCall.europePmcSearch] = [] := rfl

theorem filterDoiRes_openalex :
    List.filter NetCall.isDoiResolution [NetCall.openalexSearch] = [] := rfl

theorem step2_inv (env : AdapterEnv) (ref : ParsedReference) (acc acc' : VAcc)
    (h : step2Pubmed env ref acc = .ok acc') :
    acc'.doiValid = acc.doiValid ∧
    acc'.trace.filter NetCall.isDoiResolution =
      acc.trace.filter NetCall.isDoiResolution ∧
    (∀ k ∈ acc.fake, k ∈ acc'.fake) := by
  unfold step2Pubmed at h
  repeat' split at h
  all_goals try exact Except.noConfusion h
  all_goals try simp only [Except.ok.injEq] at h
  all_goals repeat' split at h
  all_goals try simp only [Except.ok.injEq] at h
  all_goals subst h
  all_goals exact ⟨rfl,
    by simp [List.filter_append, filterDoiRes_pubmed, filterDoiRes_crossref,
      filterDoiRes_europe, filterDoiRes_openalex],
    fun k hk => by simp [hk]⟩

theorem step3_inv (env : AdapterEnv) (ref : ParsedReference) (acc acc' : VAcc)
    (h : step3Crossref env ref acc = .ok acc') :
    acc'.doiValid = acc.doiValid ∧
    acc'.trace.filter NetCall.isDoiResolution =
      acc.trace.filter NetCall.isDoiResolution ∧
    (∀ k ∈ acc.fake, k ∈ acc'.fake) := by
  unfold step3Crossref at h
  repeat' split at h
  all_goals try exact Except.noConfusion h
  all_goals try simp only [Except.ok.injEq] at h
  all_goals repeat' split at h
  all_goals try simp only [Except.ok.injEq] at h
  all_goals subst h
  all_goals exact ⟨rfl,
    by simp [List.filter_append, filterDoiRes_pubmed, filterDoiRes_crossref,
      filterDoiRes_europe, filterDoiRes_openalex],
    fun k hk => by simp [hk]⟩

theorem step35_inv (env : AdapterEnv) (ref : ParsedReference) (acc acc' : VAcc)
    (h : step35EuropePmc env ref acc = .ok acc') :
    acc'.doiValid = acc.doiValid ∧
    acc'.trace.filter NetCall.isDoiResolution =
      acc.trace.filter NetCall.isDoiResolution ∧
    (∀ k ∈ acc.fake, k ∈ acc'.fake) := by
  unfold step35EuropePmc at h
  repeat' split at h
  all_goals try exact Except.noConfusion h
  all_goals try simp only [Except.ok.injEq] at h
  all_goals repeat' split at h
  all_goals try simp only [Except.ok.injEq] at h
  all_goals subst h
  all_goals exact ⟨rfl,
    by simp [List.filter_append, filterDoiRes_pubmed, filterDoiRes_crossref,
      filterDoiRes_europe, filterDoiRes_openalex],
    fun k hk => by simp [hk]⟩

theorem step36_inv (env : AdapterEnv) (ref : ParsedReference) (acc acc' : VAcc)
    (h : step36OpenalexText env ref acc = .ok acc') :
    acc'.doiValid = acc.doiValid ∧
    acc'.trace.filter NetCall.isDoiResolution =
      acc.trace.filter NetCall.isDoiResolution ∧
    (∀ k ∈ acc.fake, k ∈ acc'.fake) := by
  unfold step36OpenalexText at h
  repeat' split at h
  all_goals try exact Except.noConfusion h
  all_goals try simp only [Except.ok.injEq] at h
  all_goals repeat' split at h
  all_goals try simp only [Except.ok.injEq] at h
  all_goals subst h
  all_goals exact ⟨rfl,
    by simp [List.filter_append, filterDoiRes_pubmed, filterDoiRes_crossref,
      filterDoiRes_europe, filterDoiRes_openalex],
    fun k hk => by simp [hk]⟩

theorem step4_inv (ref : ParsedReference) (acc : VAcc) :
    (step4Heuristics ref acc).doiValid = acc.doiValid ∧
    (step4Heuristics ref acc).trace = acc.trace ∧
    (step4Heuristics ref acc).fake = acc.fake :=
  ⟨rfl, rfl, rfl⟩

/-- C3: a reference whose (truthy) DOI matches a truncated-DOI pattern
never reaches network DOI resolution — the run's trace contains no
`doi.org` HEAD, CrossRef-by-DOI or OpenAlex-by-DOI call — its
`doi_valid` stays indeterminate (`none`), and the truncated/malformed-DOI
fake indicator is appended to the result. -/
theorem c3_truncated_doi_no_network (env : AdapterEnv)
    (ref : ParsedReference) (r : VerificationResult) (tr : List NetCall)
    (htr : optTruthy ref.doi = true)
    (ht : isTruncatedDoi (getS ref.doi) = true)
    (hrun : verifyBody env ref = .ok (r, tr)) :
    r.doi_valid = none ∧
    IndKind.truncatedDoi ∈ r.fake_indicators ∧
    tr.filter NetCall.isDoiResolution = [] := by
  have hmem0 : IndKind.truncatedDoi ∈ step0Indicators env.currentYear ref := by
    unfold step0Indicators
    rw [htr, ht]
    simp
  have hguard : (optTruthy ref.doi &&
      !(({ fake := step0Indicators env.currentYear ref } : VAcc)).fake.contains
        IndKind.truncatedDoi) = false := by
    have hc : (step0Indicators env.currentYear ref).contains
        IndKind.truncatedDoi = true := by simpa using hmem0
    simp [hc]
    exact fun _ => hmem0
  have hskip := doiStep_skip env ref
    ({ fake := step0Indicators env.currentYear ref } : VAcc) hguard
  unfold verifyBody at hrun
  simp only [hskip] at hrun
  split at hrun
  · exact Except.noConfusion hrun
  · rename_i a2 heq2
    split at hrun
    · exact Except.noConfusion hrun
    · rename_i a3 heq3
      split at hrun
      · exact Except.noConfusion hrun
      · rename_i a4 heq4
        split at hrun
        · exact Except.noConfusion hrun
        · rename_i a5 heq5
          simp only [Except.ok.injEq, Prod.mk.injEq] at hrun
          obtain ⟨hr, htr5⟩ := hrun
          have i2 := step2_inv env ref _ a2 heq2
          have i3 := step3_inv env ref a2 a3 heq3
          have i35 := step35_inv env ref a3 a4 heq4
          have i36 := step36_inv env ref a4 a5 heq5
          have i4 := step4_inv ref a5
          refine ⟨?_, ?_, ?_⟩
          · rw [← hr]
            show (step4Heuristics ref a5).doiValid = none
            rw [i4.1, i36.1, i35.1, i3.1, i2.1]
          · rw [← hr]
            show IndKind.truncatedDoi ∈ (step4Heuristics ref a5).fake
            rw [i4.2.2]
            exact i36.2.2 _ (i35.2.2 _ (i3.2.2 _ (i2.2.2 _ hmem0)))
          · rw [← htr5, i4.2.1, i36.2.1, i35.2.1, i3.2.1, i2.2.1]
            rfl

def c3env : AdapterEnv :=
  { currentYear := 2025, currentMonth := 10, sim := fun _ _ => 0,
    doiHead := fun _ => .ok none, crossrefByDoi := fun _ => .ok none,
    openalexByDoi := fun _ => .ok none, pubmedArticle := fun _ => .ok none,
    crossrefSearchItem := fun _ => .ok none,
    europePmcSearch := fun _ => .ok none,
    openalexWorks := fun _ => .ok [] }

def c3ref : ParsedReference :=
  { raw_text := "x", title := some "t", doi := some "10.1016/j" }

/-- The result `verify` assembles for `c3ref` under `c3env`. -/
def c3res : VerificationResult :=
  { status := .SUSPICIOUS, confidence := 0, doi_valid := none,
    fake_indicators := [IndKind.truncatedDoi],
    manual_verify_links := [LinkKind.googleScholar,
      LinkKind.crossrefSearchLink, LinkKind.doiResolver],
    verification_sources := ["PubMed", "CrossRef"] }

def c3tr : List NetCall :=
  [NetCall.pubmedSearch, NetCall.crossrefSearch, NetCall.europePmcSearch,
   NetCall.openalexSearch]

/-- Witness for `c3_truncated_doi_no_network` on the truncated DOI
`10.1016/j` with all adapters answering "nothing found". -/
theorem c3_truncated_doi_no_network_witness :
    optTruthy c3ref.doi = true ∧
    isTruncatedDoi (getS c3ref.doi) = true ∧
    (c3res.doi_valid = none ∧
      IndKind.truncatedDoi ∈ c3res.fake_indicators ∧
      c3tr.filter NetCall.isDoiResolution = []) := by
  have e0 : step0Indicators c3env.currentYear c3ref = [IndKind.truncatedDoi] := by decide
  have s1 : doiStep c3env c3ref ({ fake := [IndKind.truncatedDoi] } : VAcc) = .ok ({ fake := [IndKind.truncatedDoi] } : VAcc) :=
    doiStep_skip _ _ _ (by decide)
  have s2 : step2Pubmed c3env c3ref ({ fake := [IndKind.truncatedDoi] } : VAcc) = .ok ({ fake := [IndKind.truncatedDoi], sources := ["PubMed"], trace := [NetCall.pubmedSearch] } : VAcc) := rfl
  have s3 : step3Crossref c3env c3ref ({ fake := [IndKind.truncatedDoi], sources := ["PubMed"], trace := [NetCall.pubmedSearch] } : VAcc) = .ok ({ fake := [IndKind.truncatedDoi], sources := ["PubMed", "CrossRef"], trace := [NetCall.pubmedSearch, NetCall.crossrefSearch] } : VAcc) := by
    unfold step3Crossref
    rw [if_pos (show ({ fake := [IndKind.truncatedDoi], sources := ["PubMed"], trace := [NetCall.pubmedSearch] } : VAcc).best < 4/5 by norm_num)]
    rfl
  have s35 : step35EuropePmc c3env c3ref ({ fake := [IndKind.truncatedDoi], sources := ["PubMed", "CrossRef"], trace := [NetCall.pubmedSearch, NetCall.crossrefSearch] } : VAcc) = .ok ({ fake := [IndKind.truncatedDoi], sources := ["PubMed", "CrossRef"], trace := [NetCall.pubmedSearch, NetCall.crossrefSearch, NetCall.europePmcSearch] } : VAcc) := by
    unfold step35EuropePmc
    rw [if_pos (show ({ fake := [IndKind.truncatedDoi], sources := ["PubMed", "CrossRef"], trace := [NetCall.pubmedSearch, NetCall.crossrefSearch] } : VAcc).best < 4/5 by norm_num)]
    rfl
  have s36 : step36OpenalexText c3env c3ref ({ fake := [IndKind.truncatedDoi], sources := ["PubMed", "CrossRef"], trace := [NetCall.pubmedSearch, NetCall.crossrefSearch, NetCall.europePmcSearch] } : VAcc) = .ok ({ fake := [IndKind.truncatedDoi], sources := ["PubMed", "CrossRef"], trace := [NetCall.pubmedSearch, NetCall.crossrefSearch, NetCall.europePmcSearch, NetCall.openalexSearch] } : VAcc) := by
    unfold step36OpenalexText
    rw [if_pos (show ({ fake := [IndKind.truncatedDoi], sources := ["PubMed", "CrossRef"], trace := [NetCall.pubmedSearch, NetCall.crossrefSearch, NetCall.europePmcSearch] } : VAcc).best < 4/5 by norm_num)]
    rfl
  have hrun : verifyBody c3env c3ref = .ok (c3res, c3tr) := by
    unfold verifyBody
    simp only [e0, s1, s2, s3, s35, s36]
    rfl
  exact ⟨by decide, by decide,
    c3_truncated_doi_no_network c3env c3ref c3res c3tr
      (by decide) (by decide) hrun⟩

/-- C5: `verify` never propagates an exception — on a cache miss, when
the body fails the returned result has status ERROR, confidence 0.0,
`error_message` set (and the sources checked so far); when the body
succeeds the assembled result is returned as is; and in either case the
only cache mutation is the insertion of that fully constructed result
under the reference's key (on a hit, the cached value is returned and
the cache is unchanged). -/
theorem c5_error_and_cache_discipline (env : AdapterEnv)
    (cache : List (String × VerificationResult)) (ref : ParsedReference) :
    (∀ r0, cacheLookup cache (getCacheKey ref) = some r0 →
      verify env cache ref = (r0, cache)) ∧
    (cacheLookup cache (getCacheKey ref) = none →
      ((verify env cache ref).2 =
        (getCacheKey ref, (verify env cache ref).1) :: cache ∧
      (∀ e srcs, verifyBody env ref = .error (e, srcs) →
        (verify env cache ref).1.status = .ERROR ∧
        (verify env cache ref).1.confidence = 0 ∧
        (verify env cache ref).1.error_message = some e ∧
        (verify env cache ref).1.verification_sources = srcs) ∧
      (∀ out, verifyBody env ref = .ok out →
        (verify env cache ref).1 = out.1))) := by
  constructor
  · intro r0 h0
    unfold verify
    simp only [h0]
  · intro hmiss
    unfold verify
    simp only [hmiss]
    refine ⟨trivial, ?_, ?_⟩
    · intro e srcs he
      simp only [he]
      exact ⟨trivial, trivial, trivial, trivial⟩
    · intro out ho
      simp only [ho]

def c5env : AdapterEnv :=
  { currentYear := 2025, currentMonth := 10, sim := fun _ _ => 0,
    doiHead := fun _ => .ok none, crossrefByDoi := fun _ => .ok none,
    openalexByDoi := fun _ => .ok none,
    pubmedArticle := fun _ => .error "network failure",
    crossrefSearchItem := fun _ => .ok none,
    europePmcSearch := fun _ => .ok none,
    openalexWorks := fun _ => .ok [] }

def c5ref : ParsedReference := { raw_text := "r", title := some "t" }

/-- Witness for `c5_error_and_cache_discipline`: a PubMed adapter failure
on an empty cache yields an ERROR result with the message recorded, and
the cache receives exactly that result. -/
theorem c5_error_and_cache_discipline_witness :
    cacheLookup [] (getCacheKey c5ref) = none ∧
    verifyBody c5env c5ref = .error ("network failure", []) ∧
    (verify c5env [] c5ref).1.status = .ERROR ∧
    (verify c5env [] c5ref).1.confidence = 0 ∧
    (verify c5env [] c5ref).1.error_message = some "network failure" ∧
    (verify c5env [] c5ref).2 =
      [(getCacheKey c5ref, (verify c5env [] c5ref).1)] := by
  have h := c5_error_and_cache_discipline c5env [] c5ref
  have hmiss : cacheLookup [] (getCacheKey c5ref) = none := rfl
  have hb : verifyBody c5env c5ref = .error ("network failure", []) := rfl
  have h2 := h.2 hmiss
  have herr := h2.2.1 "network failure" [] hb
  exact ⟨hmiss, hb, herr.1, herr.2.1, herr.2.2.1, h2.1⟩
